import Mathlib

/-
  Verification of the multi-queue streaming orchestrator in wilson.py
  (desktop voice assistant).  The definitions below are a shallow embedding
  of the source: Python functions become Lean functions, OS / network
  effects become explicit environments (records of functions), Python
  exceptions become `Except String` values caught exactly where the source
  catches them, and Qt signal emissions / queue puts become elements of
  explicit output lists.
-/

namespace Wilson

/-- Raw byte payloads (Python `bytes`) are modelled as lists of naturals. -/
abbrev ByteSeq := List Nat

/-- A dynamically typed Python value as it appears in tool-call argument
mappings: a string, `None`, or some other (non-string) object.  The source
only ever inspects truthiness and `isinstance(·, str)` on these. -/
inductive PyVal where
  | str (s : String)
  | noneV
  | other
  deriving DecidableEq, Repr

/-- Python truthiness of an argument value (`other` stands for an arbitrary
truthy non-string object). -/
def PyVal.truthy : PyVal → Bool
  | .str s => s ≠ ""
  | .noneV => false
  | .other => true

/-- The combined guard `not v or not isinstance(v, str)` used by the tool
helpers: returns the string when the value is a non-empty string. -/
def PyVal.validStr : PyVal → Option String
  | .str s => if s = "" then Option.none else some s
  | _ => Option.none

/-- String form of a value where the source interpolates it into a message. -/
def PyVal.pyStr : PyVal → String
  | .str s => s
  | .noneV => "None"
  | .other => "<object>"

/-- Is the value a Python string?  `html.escape`, `.splitlines()`,
`.upper()`, `os.path.basename` and the `in` operator all raise on a
non-string value. -/
def PyVal.isStr : PyVal → Bool
  | .str _ => true
  | _ => false

/-- The `status` values produced by the tool helpers. -/
inductive Status where
  | success
  | error
  | skipped
  | notFound
  deriving DecidableEq, Repr

/-- The result mapping a tool helper returns.  Fields other than `status`
and `message` model the extra keys some helpers add; `Option.none` means the
key is absent from the dictionary. -/
structure ToolResult where
  status : Option Status := Option.none
  message : String := ""
  files : Option (List String) := Option.none
  directoryPath : Option String := Option.none
  content : Option String := Option.none
  destination : Option String := Option.none
  matchList : Option (List String) := Option.none
  bestMatch : Option String := Option.none
  deriving DecidableEq, Repr

/-- `sys.platform` branches taken by the tool helpers. -/
inductive Platform where
  | win32
  | darwin
  | linux
  deriving DecidableEq, Repr

/-- Outcome of `subprocess.Popen(exe, shell=False)`: success, a
`FileNotFoundError` (the one exception type the source sometimes catches),
or some other exception. -/
inductive PopenOutcome where
  | ok
  | fileNotFound (msg : String)
  | raised (msg : String)
  deriving DecidableEq, Repr

/-- The operating-system / process environment the tool helpers act on.
Pure predicates model non-raising queries; `Except String` results model
calls whose exception text the source turns into an error message. -/
structure ToolEnv where
  platform : Platform
  pathExists : String → Bool
  isdir : String → Bool
  isfile : String → Bool
  listdir : String → Except String (List String)
  readWholeFile : String → Except String String
  makedirs : String → Except String Unit
  writeNewFile : String → String → Except String Unit
  appendToFile : String → String → Except String Unit
  shutilMove : String → String → Except String Unit
  homeDir : String
  environVar : String → Option String
  walk : String → List (String × List String)
  popenShell : String → Except String Unit
  popenDirect : String → PopenOutcome
  popenArgs : List String → Except String Unit
  runCmd : String → Except String Int
  runArgs : List String → Except String Int
  webOpen : String → Except String Unit
  startFile : String → Except String Unit

/-- Path join as the helpers use it (the separator string is immaterial to
every property proved below). -/
def joinPath (a b : String) : String :=
  if a = "" then b else a ++ "/" ++ b

/-- `os.path.basename`. -/
def basename (s : String) : String :=
  (s.splitOn "/").getLastD s

/-- `os.path.dirname` (the model's paths are already absolute, so
`os.path.abspath` is the identity here). -/
def dirname (s : String) : String :=
  match (s.splitOn "/").dropLast with
  | [] => ""
  | ps => String.intercalate "/" ps

/-- Python `needle in hay` on strings. -/
def strContains (hay needle : String) : Bool :=
  needle = "" || (hay.splitOn needle).length ≥ 2

/-- `AI_Core._create_folder` before its `except` clause. -/
def createFolderBody (env : ToolEnv) (folderPath : PyVal) : Except String ToolResult :=
  match folderPath.validStr with
  | Option.none => .ok { status := some .error, message := "Invalid folder path provided." }
  | some p =>
    if env.pathExists p then
      .ok { status := some .skipped, message := "The folder '" ++ p ++ "' already exists." }
    else do
      let _ ← env.makedirs p
      .ok { status := some .success,
            message := "Successfully created the folder at '" ++ p ++ "'." }

/-- `AI_Core._create_folder`. -/
def createFolder (env : ToolEnv) (folderPath : PyVal) : ToolResult :=
  match createFolderBody env folderPath with
  | .ok r => r
  | .error e => { status := some .error, message := "An error occurred: " ++ e }

/-- `AI_Core._create_file` before its `except` clause. -/
def createFileBody (env : ToolEnv) (filePath content : PyVal) : Except String ToolResult :=
  match filePath.validStr with
  | Option.none => .ok { status := some .error, message := "Invalid file path provided." }
  | some p =>
    if env.pathExists p then
      .ok { status := some .skipped, message := "The file '" ++ p ++ "' already exists." }
    else
      match content with
      | .str s => do
        let _ ← env.writeNewFile p s
        .ok { status := some .success,
              message := "Successfully created the file at '" ++ p ++ "'." }
      | _ => .error "write() argument must be str"

/-- `AI_Core._create_file`. -/
def createFile (env : ToolEnv) (filePath content : PyVal) : ToolResult :=
  match createFileBody env filePath content with
  | .ok r => r
  | .error e => { status := some .error,
                  message := "An error occurred while creating the file: " ++ e }

/-- `AI_Core._edit_file` before its `except` clause (the appended text is an
f-string, so any value formats without raising). -/
def editFileBody (env : ToolEnv) (filePath content : PyVal) : Except String ToolResult :=
  match filePath.validStr with
  | Option.none => .ok { status := some .error, message := "Invalid file path provided." }
  | some p =>
    if ¬ env.pathExists p then
      .ok { status := some .error,
            message := "The file '" ++ p ++ "' does not exist. Please create it first." }
    else do
      let _ ← env.appendToFile p ("\n" ++ content.pyStr)
      .ok { status := some .success,
            message := "Successfully appended content to the file at '" ++ p ++ "'." }

/-- `AI_Core._edit_file`. -/
def editFile (env : ToolEnv) (filePath content : PyVal) : ToolResult :=
  match editFileBody env filePath content with
  | .ok r => r
  | .error e => { status := some .error,
                  message := "An error occurred while editing the file: " ++ e }

/-- The directory branch of `_list_files`: the `isdir` check and the
listing itself. -/
def listFilesAt (env : ToolEnv) (p : String) : Except String ToolResult :=
  if ¬ env.isdir p then
    .ok { status := some .error,
          message := "The path '" ++ p ++ "' is not a valid directory." }
  else do
    let fs ← env.listdir p
    .ok { status := some .success,
          message := "Found " ++ toString fs.length ++ " items in '" ++ p ++ "'.",
          files := some fs, directoryPath := some p }

/-- `AI_Core._list_files` before its `except` clause
(`path_to_list = directory_path if directory_path else '.'`; a truthy
non-string value fails the `isinstance` check). -/
def listFilesBody (env : ToolEnv) (directoryPath : PyVal) : Except String ToolResult :=
  match directoryPath with
  | .str s => listFilesAt env (if s = "" then "." else s)
  | .noneV => listFilesAt env "."
  | .other => .ok { status := some .error, message := "Invalid directory path provided." }

/-- `AI_Core._list_files`. -/
def listFiles (env : ToolEnv) (directoryPath : PyVal) : ToolResult :=
  match listFilesBody env directoryPath with
  | .ok r => r
  | .error e => { status := some .error, message := "An error occurred: " ++ e }

/-- `AI_Core._read_file` before its `except` clause. -/
def readFileBody (env : ToolEnv) (filePath : PyVal) : Except String ToolResult :=
  match filePath.validStr with
  | Option.none => .ok { status := some .error, message := "Invalid file path provided." }
  | some p =>
    if ¬ env.pathExists p then
      .ok { status := some .error, message := "The file '" ++ p ++ "' does not exist." }
    else if ¬ env.isfile p then
      .ok { status := some .error, message := "The path '" ++ p ++ "' is not a file." }
    else do
      let c ← env.readWholeFile p
      .ok { status := some .success,
            message := "Successfully read the file '" ++ p ++ "'.", content := some c }

/-- `AI_Core._read_file`. -/
def readFile (env : ToolEnv) (filePath : PyVal) : ToolResult :=
  match readFileBody env filePath with
  | .ok r => r
  | .error e => { status := some .error,
                  message := "An error occurred while reading the file: " ++ e }

/-- The folder-shortcut table of `AI_Core._move_file`. -/
def moveShortcuts (home : String) : List (String × String) :=
  [("desktop", joinPath home "Desktop"), ("downloads", joinPath home "Downloads"),
   ("documents", joinPath home "Documents"), ("videos", joinPath home "Videos"),
   ("music", joinPath home "Music"), ("pictures", joinPath home "Pictures")]

/-- `AI_Core._move_file` before its `except` clause. -/
def moveFileBody (env : ToolEnv) (sourcePath destinationPath : PyVal) :
    Except String ToolResult :=
  match sourcePath.validStr with
  | Option.none => .ok { status := some .error, message := "Invalid source path provided." }
  | some src =>
    match destinationPath.validStr with
    | Option.none => .ok { status := some .error, message := "Invalid destination path provided." }
    | some dst0 =>
      if ¬ env.pathExists src then
        .ok { status := some .error, message := "Source '" ++ src ++ "' does not exist." }
      else
        let dst1 :=
          match (moveShortcuts env.homeDir).lookup dst0.trim.toLower with
          | some p => p
          | Option.none => dst0
        let dst2 := if env.isdir dst1 then joinPath dst1 (basename src) else dst1
        do
          let _ ← env.makedirs (dirname dst2)
          let _ ← env.shutilMove src dst2
          .ok { status := some .success, message := "Moved to '" ++ dst2 ++ "'.",
                destination := some dst2 }

/-- `AI_Core._move_file`. -/
def moveFile (env : ToolEnv) (sourcePath destinationPath : PyVal) : ToolResult :=
  match moveFileBody env sourcePath destinationPath with
  | .ok r => r
  | .error e => { status := some .error, message := "Failed to move file: " ++ e }

/-- The roots scanned by `AI_Core._search_file_sync`. -/
def searchRoots (home : String) : List String :=
  [joinPath home "Desktop", joinPath home "Downloads", joinPath home "Documents",
   joinPath home "Videos", joinPath home "Music", joinPath home "Pictures", home]

/-- One walked directory of `_search_file_sync`: append this directory's
matching files unless five matches were already reached (the source then
returns early, so later directories contribute nothing). -/
def searchAccum (filename : String) (acc : List String) (entry : String × List String) :
    List String :=
  if acc.length ≥ 5 then acc
  else
    acc ++ (entry.2.filter (fun f => strContains f.toLower filename.toLower)).map
      (fun f => joinPath entry.1 f)

/-- `AI_Core._search_file_sync` (directory pruning lives inside `env.walk`). -/
def searchFileSync (env : ToolEnv) (filename : String) : List String :=
  let roots := (searchRoots env.homeDir).filter (fun r => r ≠ "" && env.isdir r)
  (roots.map env.walk).flatten.foldl (searchAccum filename) []

/-- The Windows friendly-name table of `AI_Core._open_application`. -/
def appMap : List (String × String) :=
  [("calculator", "calc.exe"), ("notepad", "notepad.exe"), ("paint", "mspaint.exe"),
   ("wordpad", "write.exe"), ("task manager", "taskmgr.exe"),
   ("file explorer", "explorer.exe"), ("explorer", "explorer.exe"),
   ("cmd", "cmd.exe"), ("command prompt", "cmd.exe"), ("powershell", "powershell.exe"),
   ("windows powershell", "powershell.exe"), ("powershell 7", "pwsh.exe"),
   ("pwsh", "pwsh.exe"), ("terminal", "wt.exe"), ("windows terminal", "wt.exe"),
   ("git bash", "git-bash.exe"), ("gitbash", "git-bash.exe"), ("chrome", "chrome.exe"),
   ("google chrome", "chrome.exe"), ("firefox", "firefox.exe"), ("brave", "brave.exe"),
   ("brave browser", "brave.exe"), ("edge", "msedge.exe"),
   ("microsoft edge", "msedge.exe"), ("obs", "obs64.exe"), ("obs studio", "obs64.exe"),
   ("vlc", "vlc.exe"), ("discord", "discord.exe"), ("spotify", "spotify.exe"),
   ("steam", "steam.exe"), ("epic games", "epicgameslauncher.exe"),
   ("epic", "epicgameslauncher.exe"), ("mumuplayer", "MuMuNxMain.exe"),
   ("mumu", "MuMuNxMain.exe"), ("mumu player", "MuMuNxMain.exe"),
   ("vs code", "code.exe"), ("vscode", "code.exe"), ("visual studio code", "code.exe"),
   ("word", "winword.exe"), ("microsoft word", "winword.exe"), ("excel", "excel.exe"),
   ("microsoft excel", "excel.exe"), ("powerpoint", "powerpnt.exe"),
   ("snipping tool", "snippingtool.exe"), ("teams", "ms-teams:"),
   ("microsoft teams", "ms-teams:"), ("outlook", "outlook.exe"),
   ("microsoft outlook", "outlook.exe"), ("skype", "skype.exe"), ("zoom", "zoom.exe"),
   ("telegram", "telegram.exe"), ("whatsapp", "whatsapp.exe"),
   ("filmora", "Wondershare Filmora Launcher.exe")]

/-- Console apps that need a visible window (`CONSOLE_APPS`). -/
def consoleApps : List String :=
  ["cmd.exe", "powershell.exe", "pwsh.exe", "wt.exe", "git-bash.exe"]

/-- Windows path join (`os.path.join` with a backslash separator). -/
def joinWin (a b : String) : String :=
  if a = "" then b else a ++ "\\" ++ b

/-- The install locations `_open_application` scans after a direct launch
raises `FileNotFoundError`. -/
def appSearchDirs (env : ToolEnv) : List String :=
  [(env.environVar "ProgramFiles").getD "C:\\Program Files",
   (env.environVar "ProgramFiles(x86)").getD "C:\\Program Files (x86)",
   (env.environVar "LocalAppData").getD "",
   joinWin ((env.environVar "LocalAppData").getD "") "Programs",
   joinWin ((env.environVar "AppData").getD "") "..\\Local\\Programs",
   joinWin ((env.environVar "AppData").getD "") "Local\\Programs"]

/-- The `os.walk` scan of `_open_application`: the first full path whose
directory holds a file named like the executable (case-insensitively). -/
def findExeHit (env : ToolEnv) (dirs : List String) (exe : String) : Option String :=
  dirs.foldl
    (fun acc d =>
      match acc with
      | some p => some p
      | Option.none =>
        if d = "" || ¬ env.isdir d then Option.none
        else ((env.walk d).find?
                (fun rf => (rf.2.map String.toLower).contains exe.toLower)).map
               (fun rf => joinWin rf.1 exe))
    Option.none

/-- The win32 branch of `AI_Core._open_application` after a friendly-name
lookup produced `exe`, from the direct-launch attempt on. -/
def openApplicationWinLaunch (env : ToolEnv) (applicationName exe : String) :
    Except String ToolResult :=
  match env.popenDirect exe with
  | .ok => .ok { status := some .success,
                 message := "Successfully launched '" ++ applicationName ++ "'." }
  | .raised m => .error m
  | .fileNotFound _ =>
    match findExeHit env (appSearchDirs env) exe with
    | some fullPath =>
      match env.popenDirect fullPath with
      | .ok => .ok { status := some .success,
                     message := "Launched '" ++ applicationName ++ "' from " ++
                       fullPath ++ "." }
      | .fileNotFound m => .error m
      | .raised m => .error m
    | Option.none => do
      let _ ← env.popenShell ("start \"\" \"" ++ exe ++ "\"")
      .ok { status := some .success,
            message := "Attempted to launch '" ++ applicationName ++ "'." }

/-- The darwin friendly-name table of `_open_application`. -/
def appMapMac : List (String × String) :=
  [("calculator", "Calculator"), ("chrome", "Google Chrome"), ("firefox", "Firefox"),
   ("finder", "Finder"), ("textedit", "TextEdit"), ("obs", "OBS"),
   ("obs studio", "OBS"), ("discord", "Discord"), ("spotify", "Spotify")]

/-- `AI_Core._open_application` before its `except` clause. -/
def openApplicationBody (env : ToolEnv) (applicationName : PyVal) :
    Except String ToolResult :=
  match applicationName.validStr with
  | Option.none => .ok { status := some .error, message := "Invalid application name provided." }
  | some appName =>
    let nameLower := appName.toLower.trim
    match env.platform with
    | .win32 =>
      match appMap.lookup nameLower with
      | some exe =>
        if exe.endsWith ":" then do
          let _ ← env.popenShell ("start " ++ exe)
          .ok { status := some .success,
                message := "Successfully launched '" ++ appName ++ "'." }
        else if consoleApps.contains exe.toLower then do
          let _ ← env.popenShell ("start \"\" \"" ++ exe ++ "\"")
          .ok { status := some .success,
                message := "Successfully launched '" ++ appName ++ "'." }
        else openApplicationWinLaunch env appName exe
      | Option.none => do
        let _ ← env.popenShell ("start \"\" \"" ++ appName ++ "\"")
        .ok { status := some .success,
              message := "Attempted to launch '" ++ appName ++ "'." }
    | .darwin => do
      let target := (appMapMac.lookup nameLower).getD appName
      let _ ← env.popenArgs ["open", "-a", target]
      .ok { status := some .success,
            message := "Successfully launched '" ++ appName ++ "'." }
    | .linux => do
      let _ ← env.popenArgs [nameLower]
      .ok { status := some .success,
            message := "Successfully launched '" ++ appName ++ "'." }

/-- `AI_Core._open_application`. -/
def openApplication (env : ToolEnv) (applicationName : PyVal) : ToolResult :=
  match openApplicationBody env applicationName with
  | .ok r => r
  | .error e => { status := some .error, message := "An error occurred: " ++ e }

/-- `AI_Core._open_direct_youtube` before its `except` clause. -/
def openDirectYoutubeBody (env : ToolEnv) (query contentType : PyVal) :
    Except String ToolResult :=
  match query.validStr with
  | Option.none => .ok { status := some .error, message := "Invalid query." }
  | some q =>
    let encoded := q.replace " " "+"
    let url :=
      if contentType = .str "channel" then
        "https://www.youtube.com/results?search_query=" ++ encoded ++ "&sp=EgIQAg%253D%253D"
      else if contentType = .str "video" then
        "https://www.youtube.com/results?search_query=" ++ encoded ++ "&sp=EgIQAQ%253D%253D"
      else
        "https://www.youtube.com/results?search_query=" ++ encoded
    do
      let _ ← env.webOpen url
      .ok { status := some .success,
            message := "Opened YouTube search for '" ++ q ++
              "'. The first result should be the " ++ contentType.pyStr ++
              ". The user can now click it themselves, or you can ask them to share " ++
              "the URL so you can open it directly." }

/-- `AI_Core._open_direct_youtube`. -/
def openDirectYoutube (env : ToolEnv) (query contentType : PyVal) : ToolResult :=
  match openDirectYoutubeBody env query contentType with
  | .ok r => r
  | .error e => { status := some .error, message := "An error occurred: " ++ e }

/-- `AI_Core._search_and_open` before its `except` clause. -/
def searchAndOpenBody (env : ToolEnv) (query platform : PyVal) :
    Except String ToolResult :=
  match query.validStr with
  | Option.none => .ok { status := some .error, message := "Invalid query." }
  | some q =>
    let encoded := q.replace " " "+"
    if platform = .str "youtube" then do
      let _ ← env.webOpen ("https://www.youtube.com/@" ++ q.replace " " "")
      .ok { status := some .success,
            message := "Attempted to open YouTube channel for '" ++ q ++
              "' via direct handle URL. If it doesn't load, I'll search instead." }
    else if platform = .str "google" then do
      let _ ← env.webOpen ("https://www.google.com/search?q=" ++ encoded)
      .ok { status := some .success, message := "Opened Google search for '" ++ q ++ "'." }
    else do
      let _ ← env.webOpen ("https://www.youtube.com/results?search_query=" ++ encoded)
      .ok { status := some .success,
            message := "Opened search for '" ++ q ++ "' on " ++ platform.pyStr ++ "." }

/-- `AI_Core._search_and_open`. -/
def searchAndOpen (env : ToolEnv) (query platform : PyVal) : ToolResult :=
  match searchAndOpenBody env query platform with
  | .ok r => r
  | .error e => { status := some .error, message := "An error occurred: " ++ e }

/-- The Windows process-name table of `AI_Core._close_application`. -/
def processMap : List (String × List String) :=
  [("chrome", ["chrome.exe"]), ("google chrome", ["chrome.exe"]),
   ("brave", ["brave.exe"]), ("brave browser", ["brave.exe"]),
   ("firefox", ["firefox.exe"]), ("edge", ["msedge.exe"]),
   ("microsoft edge", ["msedge.exe"]), ("discord", ["discord.exe"]),
   ("spotify", ["spotify.exe"]), ("steam", ["steam.exe"]), ("obs", ["obs64.exe"]),
   ("obs studio", ["obs64.exe"]), ("vlc", ["vlc.exe"]), ("notepad", ["notepad.exe"]),
   ("calculator", ["calculatorapp.exe", "calc.exe"]), ("explorer", ["explorer.exe"]),
   ("file explorer", ["explorer.exe"]), ("task manager", ["taskmgr.exe"]),
   ("cmd", ["cmd.exe"]), ("command prompt", ["cmd.exe"]),
   ("powershell", ["powershell.exe"]), ("teams", ["ms-teams.exe", "teams.exe"]),
   ("microsoft teams", ["ms-teams.exe", "teams.exe"]), ("outlook", ["outlook.exe"]),
   ("word", ["winword.exe"]), ("microsoft word", ["winword.exe"]),
   ("excel", ["excel.exe"]), ("microsoft excel", ["excel.exe"]),
   ("powerpoint", ["powerpnt.exe"]), ("zoom", ["zoom.exe"]),
   ("telegram", ["telegram.exe"]), ("skype", ["skype.exe"]),
   ("mumuplayer", ["MuMuNxMain.exe"]), ("mumu", ["MuMuNxMain.exe"]),
   ("mumu player", ["MuMuNxMain.exe"]), ("epic games", ["epicgameslauncher.exe"]),
   ("vs code", ["code.exe"]), ("vscode", ["code.exe"]),
   ("visual studio code", ["code.exe"]), ("paint", ["mspaint.exe"]),
   ("filmora", ["Filmora.exe"]), ("whatsapp", ["whatsapp.exe"])]

/-- The `taskkill` loop of `_close_application`: did any process name yield
return code 0?  Any raised exception aborts the loop (outer `except`). -/
def killAll (env : ToolEnv) (procs : List String) : Except String Bool :=
  procs.foldlM
    (fun acc proc => do
      let rc ← env.runCmd ("taskkill /F /IM " ++ proc)
      pure (acc || rc = 0))
    false

/-- `AI_Core._close_application` before its `except` clause. -/
def closeApplicationBody (env : ToolEnv) (applicationName : PyVal) :
    Except String ToolResult :=
  match applicationName.validStr with
  | Option.none => .ok { status := some .error, message := "Invalid application name provided." }
  | some appName =>
    let nameLower := appName.toLower.trim
    match env.platform with
    | .win32 =>
      let procs := (processMap.lookup nameLower).getD
        [if appName.endsWith ".exe" then appName else appName ++ ".exe"]
      do
        let killed ← killAll env procs
        if killed then
          .ok { status := some .success,
                message := "Successfully closed '" ++ appName ++ "'." }
        else do
          let rc ← env.runCmd
            ("taskkill /F /FI \"WINDOWTITLE eq *" ++ appName ++ "*\"")
          if rc = 0 then
            .ok { status := some .success,
                  message := "Closed '" ++ appName ++ "' by window title." }
          else
            .ok { status := some .notFound,
                  message := "'" ++ appName ++ "' does not appear to be running." }
    | .darwin => do
      let rc ← env.runArgs ["pkill", "-x", appName]
      if rc = 0 then
        .ok { status := some .success, message := "Closed '" ++ appName ++ "'." }
      else
        .ok { status := some .notFound,
              message := "'" ++ appName ++ "' does not appear to be running." }
    | .linux => do
      let rc ← env.runArgs ["pkill", appName]
      if rc = 0 then
        .ok { status := some .success, message := "Closed '" ++ appName ++ "'." }
      else
        .ok { status := some .notFound,
              message := "'" ++ appName ++ "' does not appear to be running." }

/-- `AI_Core._close_application`. -/
def closeApplication (env : ToolEnv) (applicationName : PyVal) : ToolResult :=
  match closeApplicationBody env applicationName with
  | .ok r => r
  | .error e =>
    { status := some .error,
      message := "Failed to close '" ++ applicationName.pyStr ++ "': " ++ e }

/-- `AI_Core._open_website` before its `except` clause. -/
def openWebsiteBody (env : ToolEnv) (url : PyVal) : Except String ToolResult :=
  match url.validStr with
  | Option.none => .ok { status := some .error, message := "Invalid URL provided." }
  | some u0 =>
    let u := if u0.startsWith "http://" || u0.startsWith "https://" then u0
             else "https://" ++ u0
    do
      let _ ← env.webOpen u
      .ok { status := some .success, message := "Successfully opened '" ++ u ++ "'." }

/-- `AI_Core._open_website`. -/
def openWebsite (env : ToolEnv) (url : PyVal) : ToolResult :=
  match openWebsiteBody env url with
  | .ok r => r
  | .error e => { status := some .error, message := "An error occurred: " ++ e }

/-- Qt signal emissions of `AI_Core` that the demux and its neighbours fire.
`toolActivity` stands for `tool_activity_received`; its HTML payload is GUI
styling, which the spec places out of scope, so it carries no data here. -/
inductive Event where
  | toolActivity
  | fileSearch (filename : String) (found : List String)
  | fileOpened (path : String)
  | fileList (dir : String) (files : List String)
  | codeExec (code result : String)
  | searchResults (urls : List String)
  | endOfTurn
  | speakingStarted
  | speakingStopped
  | textReceived (t : String)
  | videoModeChanged (m : String)
  deriving DecidableEq, Repr

/-- The tool-call argument mapping.  A field holds `Option.none` when the
key is absent; `args.get(k, default)` is `getArg`. -/
structure Args where
  folderPath : Option PyVal := Option.none
  filePath : Option PyVal := Option.none
  content : Option PyVal := Option.none
  directoryPath : Option PyVal := Option.none
  applicationName : Option PyVal := Option.none
  url : Option PyVal := Option.none
  query : Option PyVal := Option.none
  contentType : Option PyVal := Option.none
  platform : Option PyVal := Option.none
  filename : Option PyVal := Option.none
  sourcePath : Option PyVal := Option.none
  destinationPath : Option PyVal := Option.none
  deriving DecidableEq, Repr

/-- Python `args.get(key, default)`. -/
def getArg (v : Option PyVal) (d : PyVal) : PyVal := v.getD d

/-- One `ToolCallRequest` embedded in a chunk. -/
structure FunctionCall where
  id : String
  name : String
  args : Args
  deriving DecidableEq, Repr

/-- One entry of the `function_responses` batch sent back per tool chunk. -/
structure FunctionResponse where
  id : String
  name : String
  response : ToolResult
  deriving DecidableEq, Repr

/-- One content part of a chunk's `model_turn`. -/
structure Part where
  executableCode : Option String := Option.none
  codeExecutionResult : Option String := Option.none
  inlineData : Option ByteSeq := Option.none
  text : Option String := Option.none
  deriving DecidableEq, Repr

/-- `chunk.server_content`. -/
structure ServerContent where
  groundingUris : List String := []
  modelTurnParts : Option (List Part) := Option.none
  deriving DecidableEq, Repr

/-- One incremental chunk of a turn's response stream.  A non-empty
`functionCalls` list models a truthy `chunk.tool_call.function_calls`. -/
structure Chunk where
  functionCalls : List FunctionCall := []
  serverContent : Option ServerContent := Option.none
  deriving DecidableEq, Repr

/-- The per-turn accumulator of `receive_text`
(`turn_urls, turn_code_content, turn_code_result, file_list_data`). -/
structure TurnState where
  urls : List String := []
  codeContent : String := ""
  codeResult : String := ""
  fileListData : Option (String × List String) := Option.none
  deriving DecidableEq, Repr

/-- Messages the orchestrator sends to the RemoteSession. -/
inductive Send where
  | toolResponse (responses : List FunctionResponse)
  | realtimeAudio (data : ByteSeq)
  | realtimeVideo (data : ByteSeq)
  | clientContent (text : String)
  deriving DecidableEq, Repr

/-- Everything `receive_text` pushes outward while handling a turn: signal
emissions, RemoteSession sends, playback-queue puts and TTS-fragment-queue
puts, each in program order. -/
structure DemuxOut where
  events : List Event := []
  sends : List Send := []
  audioPuts : List ByteSeq := []
  ttsPuts : List (Option String) := []
  deriving DecidableEq, Repr

/-- Concatenate two output records in program order. -/
def appendOut (a b : DemuxOut) : DemuxOut :=
  ⟨a.events ++ b.events, a.sends ++ b.sends, a.audioPuts ++ b.audioPuts,
   a.ttsPuts ++ b.ttsPuts⟩

/-- What one branch of the tool-dispatch chain produces: the result mapping
appended to the batch, the signals it emits, and the update (if any) to the
turn's `file_list_data` slot. -/
structure ToolDispatchOut where
  result : ToolResult
  events : List Event := []
  fileListUpdate : Option (String × List String) := Option.none

/-- Did the `open_file` branch search for the file by name
(`if not file_path and filename`)? -/
def openFileSearched (a : Args) : Bool :=
  ¬ (getArg a.filePath .noneV).truthy && (getArg a.filename .noneV).truthy

/-- The search results the `open_file` branch obtained, if it searched. -/
def openFileFound (env : ToolEnv) (a : Args) : List String :=
  if openFileSearched a then searchFileSync env (getArg a.filename .noneV).pyStr else []

/-- The signals the search phase of `open_file` emits: the scanning
notice, then the search-hits signal when something was found. -/
def openFileSearchEvents (env : ToolEnv) (a : Args) : List Event :=
  match openFileSearched a, openFileFound env a with
  | false, _ => []
  | true, [] => [Event.toolActivity]
  | true, m :: ms =>
    [Event.toolActivity, Event.fileSearch (getArg a.filename .noneV).pyStr (m :: ms)]

/-- The `file_path` value after the optional search phase. -/
def openFileResolved (env : ToolEnv) (a : Args) : PyVal :=
  if openFileSearched a then
    match openFileFound env a with
    | [] => PyVal.noneV
    | m :: _ => PyVal.str m
  else getArg a.filePath .noneV

/-- The guard `if file_path and os.path.exists(file_path)`. -/
def openFileUsablePath (env : ToolEnv) (a : Args) : Option String :=
  match openFileResolved env a with
  | .str s => if s ≠ "" && env.pathExists s then some s else Option.none
  | _ => Option.none

/-- The launch phase of `open_file`: the result mapping plus its trailing
signals. -/
def openFileFinal (env : ToolEnv) (a : Args) : ToolResult × List Event :=
  match openFileUsablePath env a with
  | some p =>
    match (match env.platform with
           | .win32 => env.startFile p
           | _ => env.popenArgs ["xdg-open", p]) with
    | .ok _ =>
      ({ status := some .success,
         message := "Opened '" ++ basename p ++ "' successfully." },
       [Event.fileOpened p])
    | .error e =>
      ({ status := some .error, message := "Failed to open file: " ++ e },
       [Event.toolActivity])
  | Option.none =>
    ({ status := some .notFound,
       message := "File not found: '" ++
         (if (openFileResolved env a).truthy then (openFileResolved env a).pyStr
          else (getArg a.filename .noneV).pyStr) ++ "'." },
     [Event.toolActivity])

/-- The result of the `search_file` branch. -/
def searchFileResult (env : ToolEnv) (filename : String) : ToolResult :=
  match searchFileSync env filename with
  | [] => { status := some .notFound,
            message := "No file matching '" ++ filename ++ "' found." }
  | m :: ms =>
    { status := some .success,
      message := "Found " ++ toString (m :: ms).length ++ " match(es).",
      matchList := some (m :: ms), bestMatch := some m }

/-- The result one branch of the `for fc in chunk.tool_call.function_calls`
dispatch chain appends to the batch (`result` stays `{}` on an unmatched
tool name). -/
def toolResultOf (env : ToolEnv) (fc : FunctionCall) : ToolResult :=
  match fc.name with
  | "create_folder" => createFolder env (getArg fc.args.folderPath (.str ""))
  | "create_file" =>
    createFile env (getArg fc.args.filePath (.str "")) (getArg fc.args.content (.str ""))
  | "edit_file" =>
    editFile env (getArg fc.args.filePath (.str "")) (getArg fc.args.content (.str ""))
  | "list_files" => listFiles env (getArg fc.args.directoryPath .noneV)
  | "read_file" => readFile env (getArg fc.args.filePath (.str ""))
  | "open_application" => openApplication env (getArg fc.args.applicationName (.str ""))
  | "close_application" => closeApplication env (getArg fc.args.applicationName (.str ""))
  | "open_website" => openWebsite env (getArg fc.args.url (.str ""))
  | "open_direct_youtube" =>
    openDirectYoutube env (getArg fc.args.query (.str ""))
      (getArg fc.args.contentType (.str "channel"))
  | "search_and_open" =>
    searchAndOpen env (getArg fc.args.query (.str ""))
      (getArg fc.args.platform (.str "youtube"))
  | "search_file" => searchFileResult env (getArg fc.args.filename (.str "")).pyStr
  | "open_file" => (openFileFinal env fc.args).1
  | "move_file" =>
    moveFile env (getArg fc.args.sourcePath (.str ""))
      (getArg fc.args.destinationPath (.str ""))
  | _ => {}

/-- The signals one branch of the dispatch chain emits, in program order,
in a non-raising execution: the HTML payloads interpolate argument values
through `escape` and friends, which raise on a non-string value and abort
the turn (`dispatchRaises` below captures exactly that condition); this
function describes the executions where every interpolated argument is a
string. -/
def toolEventsOf (env : ToolEnv) (fc : FunctionCall) : List Event :=
  match fc.name with
  | "create_folder" => [Event.toolActivity]
  | "create_file" => [Event.toolActivity]
  | "edit_file" => [Event.toolActivity]
  | "list_files" => []
  | "read_file" => [Event.toolActivity]
  | "open_application" => [Event.toolActivity, Event.toolActivity]
  | "close_application" => [Event.toolActivity, Event.toolActivity]
  | "open_website" => [Event.toolActivity]
  | "open_direct_youtube" => [Event.toolActivity]
  | "search_and_open" => [Event.toolActivity]
  | "search_file" =>
    [Event.toolActivity,
     Event.fileSearch (getArg fc.args.filename (.str "")).pyStr
       (searchFileSync env (getArg fc.args.filename (.str "")).pyStr)]
  | "open_file" => openFileSearchEvents env fc.args ++ (openFileFinal env fc.args).2
  | "move_file" => [Event.toolActivity, Event.toolActivity]
  | _ => []

/-- The update to the turn's `file_list_data` slot: only a successful
`list_files` call overwrites it. -/
def fileListUpdateOf (env : ToolEnv) (fc : FunctionCall) :
    Option (String × List String) :=
  match fc.name with
  | "list_files" =>
    let r := listFiles env (getArg fc.args.directoryPath .noneV)
    if r.status = some .success then some (r.directoryPath.getD "", r.files.getD [])
    else Option.none
  | _ => Option.none

/-- The body of the `for fc in chunk.tool_call.function_calls` loop of
`receive_text` in a non-raising execution: dispatch one request to its
helper, emit the associated activity signals, and record any
directory-listing data.  When an argument value is not a string the
source instead raises while building the activity HTML and the turn is
aborted before `send_tool_response`; `dispatchRaises` states that
condition and `runToolLoopEx` / `turnBatchesEx` model the loop with it. -/
def handleFunctionCall (env : ToolEnv) (fc : FunctionCall) : ToolDispatchOut :=
  { result := toolResultOf env fc,
    events := toolEventsOf env fc,
    fileListUpdate := fileListUpdateOf env fc }

/-- Does the dispatch branch for this request raise while formatting its
activity payloads?  Branch by branch: `escape(path)` on the argument
(create_folder :756, create_file :766, edit_file :775, read_file :790),
`args.get("content","").splitlines()` (create_file :763), the pre-helper
`escape(app)` emits (open_application :796, close_application :808),
`"//" in url` (open_website :820), `escape(query)` (open_direct_youtube
:832, search_and_open :842), `platform.upper()` (search_and_open :841),
the pre-search `escape(filename)` (search_file :849, open_file :863),
`os.path.exists(file_path)` on a non-string (open_file :869), and
`os.path.basename(src)` with `escape(src)`, `escape(dst)` (move_file
:889-893) — each raises exactly when the value involved is not a string;
`list_files` emits nothing and an unmatched name runs no branch code. -/
def dispatchRaises (env : ToolEnv) (fc : FunctionCall) : Bool :=
  match fc.name with
  | "create_folder" => ¬ (getArg fc.args.folderPath (.str "")).isStr
  | "create_file" =>
    ¬ (getArg fc.args.filePath (.str "")).isStr ||
    ¬ (getArg fc.args.content (.str "")).isStr
  | "edit_file" => ¬ (getArg fc.args.filePath (.str "")).isStr
  | "list_files" => false
  | "read_file" => ¬ (getArg fc.args.filePath (.str "")).isStr
  | "open_application" => ¬ (getArg fc.args.applicationName (.str "")).isStr
  | "close_application" => ¬ (getArg fc.args.applicationName (.str "")).isStr
  | "open_website" => ¬ (getArg fc.args.url (.str "")).isStr
  | "open_direct_youtube" => ¬ (getArg fc.args.query (.str "")).isStr
  | "search_and_open" =>
    ¬ (getArg fc.args.query (.str "")).isStr ||
    ¬ (getArg fc.args.platform (.str "youtube")).isStr
  | "search_file" => ¬ (getArg fc.args.filename (.str "")).isStr
  | "open_file" =>
    (openFileSearched fc.args && ¬ (getArg fc.args.filename .noneV).isStr) ||
    (match openFileResolved env fc.args with
     | .other => true
     | _ => false)
  | "move_file" =>
    ¬ (getArg fc.args.sourcePath (.str "")).isStr ||
    ¬ (getArg fc.args.destinationPath (.str "")).isStr
  | _ => false

/-- The tool loop of one chunk with the exception behavior of the source:
requests are dispatched in order, and the first branch that raises aborts
the loop — the exception escapes the `async for`, is caught by the
per-turn handler (wilson.py:926), and `send_tool_response` is never
reached — so a chunk either answers every request in one batch (`some`)
or answers none (`Option.none`). -/
def runToolLoopEx (env : ToolEnv) : List FunctionCall → Option (List FunctionResponse)
  | [] => some []
  | fc :: fcs =>
    if dispatchRaises env fc then Option.none
    else
      match runToolLoopEx env fcs with
      | some rs => some (⟨fc.id, fc.name, toolResultOf env fc⟩ :: rs)
      | Option.none => Option.none

/-- The tool-response batches one turn sends, under the exception
behavior of the source: chunks are read in order, each tool chunk
contributes one batch, and a raising dispatch aborts the whole turn —
no batch for that chunk and nothing for any later chunk. -/
def turnBatchesEx (env : ToolEnv) : List Chunk → List (List FunctionResponse)
  | [] => []
  | c :: cs =>
    match c.functionCalls with
    | [] => turnBatchesEx env cs
    | fcs =>
      match runToolLoopEx env fcs with
      | some rs => rs :: turnBatchesEx env cs
      | Option.none => []

/-- `turn_urls.add(uri)` for each truthy grounding URI (a Python set,
modelled as an insertion-ordered list without duplicates). -/
def addUrls (urls : List String) (uris : List String) : List String :=
  uris.foldl (fun acc u => if u = "" || acc.contains u then acc else acc ++ [u]) urls

/-- Handling of one `model_turn` part of a non-tool chunk. -/
def processPart (st : TurnState) (p : Part) : TurnState × DemuxOut :=
  let st1 := match p.executableCode with
             | some c => { st with codeContent := c }
             | Option.none => st
  let st2 := match p.codeExecutionResult with
             | some r => { st1 with codeResult := r }
             | Option.none => st1
  let audioOut : DemuxOut :=
    match p.inlineData with
    | some d => { events := [Event.speakingStarted], audioPuts := [d] }
    | Option.none => {}
  let textOut : DemuxOut :=
    match p.text with
    | some t => if t ≠ "" then { events := [Event.textReceived t] } else {}
    | Option.none => {}
  (st2, appendOut audioOut textOut)

/-- The parts loop of a non-tool chunk. -/
def runParts (st : TurnState) : List Part → TurnState × DemuxOut
  | [] => (st, {})
  | p :: ps =>
    ((runParts (processPart st p).1 ps).1,
     appendOut (processPart st p).2 (runParts (processPart st p).1 ps).2)

/-- The batch `receive_text` sends back for one tool chunk. -/
def chunkResponses (env : ToolEnv) (fcs : List FunctionCall) : List FunctionResponse :=
  fcs.map (fun fc => ⟨fc.id, fc.name, (handleFunctionCall env fc).result⟩)

/-- Handling of one chunk of the `async for chunk in turn` loop. -/
def processChunk (env : ToolEnv) (st : TurnState) (c : Chunk) : TurnState × DemuxOut :=
  match c.functionCalls with
  | [] =>
    match c.serverContent with
    | Option.none => (st, {})
    | some sc =>
      let st1 := { st with urls := addUrls st.urls sc.groundingUris }
      match sc.modelTurnParts with
      | Option.none => (st1, {})
      | some parts => runParts st1 parts
  | fcs =>
    let fld := fcs.foldl
      (fun acc fc =>
        match (handleFunctionCall env fc).fileListUpdate with
        | some d => some d
        | Option.none => acc)
      st.fileListData
    ({ st with fileListData := fld },
     { events := (fcs.map (fun fc => (handleFunctionCall env fc).events)).flatten,
       sends := [Send.toolResponse (chunkResponses env fcs)] })

/-- The chunk loop of one turn. -/
def runChunks (env : ToolEnv) (st : TurnState) : List Chunk → TurnState × DemuxOut
  | [] => (st, {})
  | c :: cs =>
    ((runChunks env (processChunk env st c).1 cs).1,
     appendOut (processChunk env st c).2 (runChunks env (processChunk env st c).1 cs).2)

/-- What `receive_text` emits after the turn's stream ends: the
`if file_list_data / elif turn_code_content / elif turn_urls / else` chain,
then `end_of_turn` and `speaking_stopped`. -/
def finalizeEvents (st : TurnState) : List Event :=
  (match st.fileListData with
   | some d => [Event.fileList d.1 d.2]
   | Option.none =>
     if st.codeContent ≠ "" then [Event.codeExec st.codeContent st.codeResult]
     else if st.urls ≠ [] then [Event.searchResults st.urls]
     else [Event.codeExec "" "", Event.searchResults [], Event.fileList "" []]) ++
  [Event.endOfTurn, Event.speakingStopped]

/-- One whole turn of `receive_text` starting from the fresh accumulator
`turn_urls, turn_code_content, turn_code_result, file_list_data =
set(), "", "", None`. -/
def demuxTurn (env : ToolEnv) (cs : List Chunk) : DemuxOut :=
  appendOut (runChunks env {} cs).2 { events := finalizeEvents (runChunks env {} cs).1 }

/-- Value of one base64 alphabet character (RFC 4648, the alphabet
`base64.b64decode` uses). -/
def b64CharVal (c : Char) : Option Nat :=
  if 'A' ≤ c ∧ c ≤ 'Z' then some (c.toNat - 65)
  else if 'a' ≤ c ∧ c ≤ 'z' then some (c.toNat - 97 + 26)
  else if '0' ≤ c ∧ c ≤ '9' then some (c.toNat - 48 + 52)
  else if c = '+' then some 62
  else if c = '/' then some 63
  else Option.none

/-- Decode one four-character base64 group into up to three bytes. -/
def b64Group (a b c d : Char) : List Nat :=
  match b64CharVal a, b64CharVal b with
  | some va, some vb =>
    let b0 := va * 4 + vb / 16
    if c = '=' then [b0]
    else
      match b64CharVal c with
      | some vc =>
        let b1 := (vb % 16) * 16 + vc / 4
        if d = '=' then [b0, b1]
        else
          match b64CharVal d with
          | some vd => [b0, b1, (vc % 4) * 64 + vd]
          | Option.none => []
      | Option.none => []
  | _, _ => []

/-- Decode a base64 character stream four characters at a time. -/
def b64DecodeList : List Char → List Nat
  | a :: b :: c :: d :: rest => b64Group a b c d ++ b64DecodeList rest
  | _ => []

/-- `base64.b64decode` on the payloads the frame sampler enqueues. -/
def b64decode (s : String) : ByteSeq := b64DecodeList s.toList

/-- One item of `out_queue_gemini`: the microphone task enqueues
`d: bytes, mime_type: audio/pcm` dictionaries, the frame sampler enqueues
`mime_type: image/jpeg` dictionaries whose payload is base64 text, and
`otherItem` stands for any payload matching neither consumer branch. -/
inductive OutboundItem where
  | audioChunk (data : ByteSeq)
  | imageChunk (dataB64 : String)
  | otherItem
  deriving DecidableEq, Repr

/-- The branch body of `AI_Core.send_realtime` for one dequeued item. -/
def sendRealtimeStep : OutboundItem → List Send
  | .audioChunk d => [Send.realtimeAudio d]
  | .imageChunk s => [Send.realtimeVideo (b64decode s)]
  | .otherItem => []

/-- The consumer loop of `AI_Core.send_realtime` draining a queue content
(`is_running` stays true throughout the run being observed). -/
def sendRealtimeRun : List OutboundItem → List Send
  | [] => []
  | m :: ms => sendRealtimeStep m ++ sendRealtimeRun ms

/-- The send the spec promises for one outbound item (refinement target for
the FIFO claim); the `otherItem` value is never produced by either
producer task. -/
def outboundSendSpec : OutboundItem → Send
  | .audioChunk d => Send.realtimeAudio d
  | .imageChunk s => Send.realtimeVideo (b64decode s)
  | .otherItem => Send.realtimeAudio []

/-- State visible to `AI_Core.process_text_input_queue`: the two queues it
purges and whether `self.session` is set. -/
structure TextProcState where
  ttsQueue : List (Option String) := []
  playbackQueue : List ByteSeq := []
  sessionOpen : Bool := true
  deriving DecidableEq, Repr

/-- Steps `process_text_input_queue` takes for one dequeued item, in
program order. -/
inductive TextProcAction where
  | purgeFragments
  | purgePlayback
  | forwardUserTurn (text : String)
  | stopLoop
  deriving DecidableEq, Repr

/-- One iteration of `AI_Core.process_text_input_queue`: `None` is the
shutdown sentinel; otherwise, when a session is open, both queues are
drained with `get_nowait` and the user turn (`text or "."`) is forwarded. -/
def processTextItem (st : TextProcState) (item : Option String) :
    TextProcState × List TextProcAction :=
  match item with
  | Option.none => (st, [TextProcAction.stopLoop])
  | some text =>
    if st.sessionOpen then
      ({ st with ttsQueue := [], playbackQueue := [] },
       [TextProcAction.purgeFragments, TextProcAction.purgePlayback,
        TextProcAction.forwardUserTurn (if text = "" then "." else text)])
    else (st, [])

/-- The modes `AI_Core.set_video_mode` accepts. -/
def videoModes : List String := ["camera", "screen", "none"]

/-- State touched by `AI_Core.set_video_mode`. -/
structure VideoState where
  videoMode : String := "none"
  latestFrame : Option ByteSeq := Option.none
  deriving DecidableEq, Repr

/-- `AI_Core.set_video_mode`: update the mode, clear the latest-frame slot
on "none", and emit the mode-changed signal; any other string is ignored.
The `video_capture` handle is a local variable of `stream_video_to_gui`,
so this function cannot touch it. -/
def setVideoMode (st : VideoState) (mode : String) : VideoState × List Event :=
  if videoModes.contains mode then
    let lf := if mode = "none" then Option.none else st.latestFrame
    ({ st with videoMode := mode, latestFrame := lf }, [Event.videoModeChanged mode])
  else (st, [])

/-- State of the `stream_video_to_gui` loop: the shared mode flag plus the
loop-local `video_capture` handle. -/
structure CaptureLoopState where
  videoMode : String := "none"
  captureHeld : Bool := false
  captureOpened : Bool := false
  deriving DecidableEq, Repr

/-- Effects one iteration of `stream_video_to_gui` performs, in program
order. -/
inductive CaptureAction where
  | acquireCamera
  | cameraRead
  | screenGrab
  | releaseCapture
  | publishFrame
  | publishEmpty
  | idleSleep
  deriving DecidableEq, Repr

/-- Nondeterminism of one capture iteration: whether `cv2.VideoCapture(0)`
opens and whether `read()` returns a frame. -/
structure CaptureEnv where
  acquireOpens : Bool := true
  readOk : Bool := true
  deriving DecidableEq, Repr

/-- One iteration of the `while self.is_running` loop of
`AI_Core.stream_video_to_gui` (the exception path aside): camera mode
acquires the device if none is held and reads a frame; screen and `none`
modes first release any held device. -/
def videoIter (env : CaptureEnv) (st : CaptureLoopState) :
    CaptureLoopState × List CaptureAction :=
  if st.videoMode = "camera" then
    let (opened, acquire) :=
      if st.captureHeld then (st.captureOpened, ([] : List CaptureAction))
      else (env.acquireOpens, [CaptureAction.acquireCamera])
    let st1 := { st with captureHeld := true, captureOpened := opened }
    if opened then
      if env.readOk then (st1, acquire ++ [CaptureAction.cameraRead, CaptureAction.publishFrame])
      else (st1, acquire ++ [CaptureAction.cameraRead, CaptureAction.idleSleep])
    else (st1, acquire ++ [CaptureAction.publishEmpty])
  else if st.videoMode = "screen" then
    let rel : List CaptureAction :=
      if st.captureHeld then [CaptureAction.releaseCapture] else []
    ({ st with captureHeld := false, captureOpened := false },
     rel ++ [CaptureAction.screenGrab, CaptureAction.publishFrame])
  else
    let rel : List CaptureAction :=
      if st.captureHeld then [CaptureAction.releaseCapture] else []
    ({ st with captureHeld := false, captureOpened := false },
     rel ++ [CaptureAction.idleSleep])

/-- Where a TTS connection error strikes during one speech episode:
nowhere, at `websockets.connect`, at the n-th `websocket.send` (the priming
message is send 0, the first fragment send 1), or when `await listen_task`
re-raises a listener failure. -/
inductive TTSFailure where
  | noFailure
  | atConnect (msg : String)
  | atSendIndex (n : Nat) (msg : String)
  | atListen (msg : String)
  deriving DecidableEq, Repr

/-- Observable steps of one pass of `AI_Core.tts`. -/
inductive TTSAction where
  | speakingOn
  | wsConnect
  | wsSend (payloadText : String)
  | awaitListener
  | wsClose
  | logFault (msg : String)
  | speakingOff
  deriving DecidableEq, Repr

/-- Does the n-th send raise under this failure scenario? -/
def sendFault (fail : TTSFailure) (n : Nat) : Option String :=
  match fail with
  | .atSendIndex k m => if k = n then some m else Option.none
  | _ => Option.none

/-- The inner fragment loop of `AI_Core.tts`, from send index `n`:
each queued fragment is sent with a trailing space, and the end-of-text
sentinel (`None`) triggers the flush message `text: ""`.  Returns the sends
performed and the exception message if a send raised. -/
def ttsInnerLoop (fail : TTSFailure) (n : Nat) :
    List String → List TTSAction × Option String
  | [] =>
    match sendFault fail n with
    | some m => ([], some m)
    | Option.none => ([TTSAction.wsSend ""], Option.none)
  | t :: ts =>
    match sendFault fail n with
    | some m => ([], some m)
    | Option.none =>
      (TTSAction.wsSend (t ++ " ") :: (ttsInnerLoop fail (n + 1) ts).1,
       (ttsInnerLoop fail (n + 1) ts).2)

/-- The end of a successful connection block: await the listener task
(which re-raises an `atListen` failure) and leave the `async with` block. -/
def ttsTail (fail : TTSFailure) : List TTSAction :=
  match fail with
  | .atListen m => [TTSAction.awaitListener, TTSAction.wsClose, TTSAction.logFault m]
  | _ => [TTSAction.awaitListener, TTSAction.wsClose]

/-- Everything after a successful `websockets.connect`: the priming message
(send 0), the first fragment (send 1), the fragment loop, then the listener
await; a raised send closes the socket and is logged. -/
def ttsAfterConnect (fail : TTSFailure) (first : String) (rest : List String) :
    List TTSAction :=
  match sendFault fail 0 with
  | some m => [TTSAction.wsClose, TTSAction.logFault m]
  | Option.none =>
    TTSAction.wsSend " " ::
    (match sendFault fail 1 with
     | some m => [TTSAction.wsClose, TTSAction.logFault m]
     | Option.none =>
       TTSAction.wsSend (first ++ " ") ::
       ((ttsInnerLoop fail 2 rest).1 ++
        (match (ttsInnerLoop fail 2 rest).2 with
         | some m => [TTSAction.wsClose, TTSAction.logFault m]
         | Option.none => ttsTail fail)))

/-- The `try` block of one `AI_Core.tts` pass together with the `except`
logging: an exception anywhere inside the connection block closes the
socket and is logged. -/
def ttsEpisodeMiddle (fail : TTSFailure) (first : String) (rest : List String) :
    List TTSAction :=
  match fail with
  | .atConnect m => [TTSAction.logFault m]
  | _ => TTSAction.wsConnect :: ttsAfterConnect fail first rest

/-- One speech episode of `AI_Core.tts`: a non-sentinel first fragment was
dequeued, `speaking_started` fired, the connection block ran under the given
failure scenario, and the `finally` clause fired `speaking_stopped`.
`rest` lists the further fragments dequeued before the end sentinel. -/
def ttsEpisode (fail : TTSFailure) (first : String) (rest : List String) :
    List TTSAction :=
  TTSAction.speakingOn :: ttsEpisodeMiddle fail first rest ++ [TTSAction.speakingOff]

/-- Flatten a send to the tool responses it carries. -/
def sendResponses : Send → List FunctionResponse
  | .toolResponse rs => rs
  | _ => []

/-- All tool responses a turn's output sends back, in order. -/
def outResponses (o : DemuxOut) : List FunctionResponse :=
  (o.sends.map sendResponses).flatten

/-- All tool-call requests carried by a turn's chunks, in order. -/
def turnRequests (cs : List Chunk) : List FunctionCall :=
  (cs.map Chunk.functionCalls).flatten

/-- The text deltas among a list of emitted signals, in order. -/
def collectTexts (es : List Event) : List String :=
  es.filterMap (fun e => match e with
                         | .textReceived t => some t
                         | _ => Option.none)

/-- The text delta one part yields (Python truthiness on `part.text`). -/
def partText (p : Part) : Option String :=
  match p.text with
  | some t => if t ≠ "" then some t else Option.none
  | Option.none => Option.none

/-- The text deltas a chunk yields (none for a tool chunk: the source
`continue`s past its content). -/
def chunkTexts (c : Chunk) : List String :=
  match c.functionCalls with
  | [] =>
    match c.serverContent with
    | some sc =>
      match sc.modelTurnParts with
      | some ps => ps.filterMap partText
      | Option.none => []
    | Option.none => []
  | _ :: _ => []

/-- Events the tool-dispatch loop can emit. -/
def dispatchEvent : Event → Bool
  | .toolActivity => true
  | .fileSearch _ _ => true
  | .fileOpened _ => true
  | _ => false

/-- Events the parts loop of a non-tool chunk can emit. -/
def contentEvent : Event → Bool
  | .speakingStarted => true
  | .textReceived _ => true
  | _ => false

/-- Events emitted mid-turn, before the stream ends. -/
def midTurnEvent (e : Event) : Bool := dispatchEvent e || contentEvent e

/-- The three per-turn "activity" signals. -/
def isActivityEvent : Event → Bool
  | .fileList _ _ => true
  | .codeExec _ _ => true
  | .searchResults _ => true
  | _ => false

/-- An activity signal with an empty payload, as the `else` branch of the
turn-end chain emits all three. -/
def emptyActivity : Event → Bool
  | .codeExec c r => c = "" && r = ""
  | .searchResults us => us.isEmpty
  | .fileList d fs => d = "" && fs.isEmpty
  | _ => false

/-- A substantive (non-empty) activity signal. -/
def nonEmptyActivity (e : Event) : Bool := isActivityEvent e && ¬ emptyActivity e

/-- A concrete do-nothing environment used to evaluate the model on closed
inputs. -/
def trivEnv : ToolEnv where
  platform := .linux
  pathExists := fun _ => false
  isdir := fun _ => false
  isfile := fun _ => false
  listdir := fun _ => .ok []
  readWholeFile := fun _ => .ok ""
  makedirs := fun _ => .ok ()
  writeNewFile := fun _ _ => .ok ()
  appendToFile := fun _ _ => .ok ()
  shutilMove := fun _ _ => .ok ()
  homeDir := "/home/u"
  environVar := fun _ => Option.none
  walk := fun _ => []
  popenShell := fun _ => .ok ()
  popenDirect := fun _ => .ok
  popenArgs := fun _ => .ok ()
  runCmd := fun _ => .ok 0
  runArgs := fun _ => .ok 0
  webOpen := fun _ => .ok ()
  startFile := fun _ => .ok ()

/-- A chunk carrying one text delta and nothing else. -/
def textChunk (t : String) : Chunk :=
  { serverContent := some { modelTurnParts := some [{ text := some t }] } }

/-- Actions that are neither `speaking_started` nor `speaking_stopped`. -/
def notSpeaking : TTSAction → Bool
  | .speakingOn => false
  | .speakingOff => false
  | _ => true

/-- The response batch one chunk triggers (none for a content chunk). -/
def chunkBatch (env : ToolEnv) (c : Chunk) : List Send :=
  match c.functionCalls with
  | [] => []
  | fcs => [Send.toolResponse (chunkResponses env fcs)]

/-- The result mapping carries a `status` key with one of the four
documented values. -/
def statusTotal (r : ToolResult) : Prop :=
  r.status = some Status.success ∨ r.status = some Status.error ∨
  r.status = some Status.skipped ∨ r.status = some Status.notFound

/-- Every normal return of a helper body satisfies `statusTotal` (a raised
exception is handled by the helper's `except` clause instead). -/
def bodyOkStatus (b : Except String ToolResult) : Prop :=
  ∀ r, b = Except.ok r → statusTotal r

/-- C5: for every non-sentinel text item taken from the text-input queue
while a session is open, both the TTS fragment queue and the audio playback
queue are emptied, and the two purges precede the forward of the user turn
to the RemoteSession, so nothing queued before the user input survives the
forwarding. -/
theorem wilson_user_text_preempts_speech (st : TextProcState) (t : String)
    (h : st.sessionOpen = true) :
    (processTextItem st (some t)).1.ttsQueue = [] ∧
    (processTextItem st (some t)).1.playbackQueue = [] ∧
    (processTextItem st (some t)).2 =
      [TextProcAction.purgeFragments, TextProcAction.purgePlayback,
       TextProcAction.forwardUserTurn (if t = "" then "." else t)] := by
  simp [processTextItem, h]

theorem wilson_user_text_preempts_speech_witness :
    (processTextItem ⟨[some "stale"], [[1, 2]], true⟩ (some "hello")).1.ttsQueue = [] ∧
    (processTextItem ⟨[some "stale"], [[1, 2]], true⟩ (some "hello")).1.playbackQueue = [] ∧
    (processTextItem ⟨[some "stale"], [[1, 2]], true⟩ (some "hello")).2 =
      [TextProcAction.purgeFragments, TextProcAction.purgePlayback,
       TextProcAction.forwardUserTurn (if "hello" = "" then "." else "hello")] :=
  wilson_user_text_preempts_speech ⟨[some "stale"], [[1, 2]], true⟩ "hello" rfl

/-- C9: when the dequeued text is the empty string (not the shutdown
sentinel), the forwarded user turn carries the single character "." in its
place (`text or "."`). -/
theorem wilson_empty_text_dot (st : TextProcState) (h : st.sessionOpen = true) :
    (processTextItem st (some "")).2 =
      [TextProcAction.purgeFragments, TextProcAction.purgePlayback,
       TextProcAction.forwardUserTurn "."] := by
  simp [processTextItem, h]

theorem wilson_empty_text_dot_witness :
    (processTextItem ⟨[], [], true⟩ (some "")).2 =
      [TextProcAction.purgeFragments, TextProcAction.purgePlayback,
       TextProcAction.forwardUserTurn "."] :=
  wilson_empty_text_dot ⟨[], [], true⟩ rfl

/-- C10: the video-mode field stays inside the set camera / screen / none:
a switch to a string outside the set changes nothing and emits no
mode-changed signal, any sequence of switches preserves validity of the
mode, and a switch to "none" clears the latest-frame slot. -/
theorem wilson_video_mode_invariant :
    (∀ st m, m ∉ videoModes → setVideoMode st m = (st, [])) ∧
    (∀ st (ms : List String), st.videoMode ∈ videoModes →
      (ms.foldl (fun s m => (setVideoMode s m).1) st).videoMode ∈ videoModes) ∧
    (∀ st, (setVideoMode st "none").1.latestFrame = Option.none) := by
  refine ⟨?_, ?_, ?_⟩
  · intro st m hm
    simp [setVideoMode, hm]
  · intro st ms h
    induction ms generalizing st with
    | nil => exact h
    | cons m ms ih =>
      simp only [List.foldl_cons]
      apply ih
      by_cases hm : m ∈ videoModes
      · simp [setVideoMode, hm]
      · simpa [setVideoMode, hm] using h
  · intro st
    simp [setVideoMode, videoModes]

theorem wilson_video_mode_invariant_witness :
    setVideoMode ⟨"camera", some [7]⟩ "cinema" = (⟨"camera", some [7]⟩, []) ∧
    ((["screen", "none", "camera"].foldl (fun s m => (setVideoMode s m).1)
        ⟨"camera", some [7]⟩).videoMode ∈ videoModes) ∧
    (setVideoMode ⟨"screen", some [7]⟩ "none").1.latestFrame = Option.none :=
  ⟨wilson_video_mode_invariant.1 ⟨"camera", some [7]⟩ "cinema" (by decide),
   wilson_video_mode_invariant.2.1 ⟨"camera", some [7]⟩ ["screen", "none", "camera"]
     (by decide),
   wilson_video_mode_invariant.2.2 ⟨"screen", some [7]⟩⟩

/-- C6, counterexample: `set_video_mode` does not release the capture
device synchronously before returning.  The handle is a local variable of
the `stream_video_to_gui` coroutine that the switch cannot reach: switching
from camera to screen only rewrites the mode field and emits the
mode-changed signal, and the release happens later, as the first action of
the capture loop's next iteration. -/
theorem wilson_set_video_mode_sync_release_counterexample :
    setVideoMode ⟨"camera", some [0]⟩ "screen" =
      (⟨"screen", some [0]⟩, [Event.videoModeChanged "screen"]) ∧
    (videoIter {} ⟨"screen", true, true⟩).2 =
      [CaptureAction.releaseCapture, CaptureAction.screenGrab,
       CaptureAction.publishFrame] := by
  constructor <;> rfl

/-- C6, amended: the switch itself releases nothing; instead the capture
loop releases the previously held device on its next iteration, before the
first frame-capture attempt under the new mode (the release is the very
first action of that iteration), and after an iteration the device is held
exactly when the mode is camera — so at most one capture resource is ever
held. -/
theorem wilson_video_mode_release_in_loop (env : CaptureEnv) (st : CaptureLoopState) :
    ((videoIter env st).1.captureHeld = decide (st.videoMode = "camera")) ∧
    (st.videoMode ≠ "camera" → st.captureHeld = true →
      (videoIter env st).2.head? = some CaptureAction.releaseCapture) := by
  constructor
  · by_cases h1 : st.videoMode = "camera"
    · by_cases h2 : st.captureHeld <;>
        simp [videoIter, h1, h2] <;>
        split <;> simp_all <;> split <;> simp_all
    · by_cases h2 : st.videoMode = "screen" <;> simp [videoIter, h1, h2]
  · intro h1 h2
    by_cases h3 : st.videoMode = "screen" <;> simp [videoIter, h1, h2, h3]

theorem wilson_video_mode_release_in_loop_witness :
    ((videoIter {} ⟨"screen", true, true⟩).1.captureHeld =
      decide (("screen" : String) = "camera")) ∧
    (videoIter {} ⟨"screen", true, true⟩).2.head? = some CaptureAction.releaseCapture :=
  ⟨(wilson_video_mode_release_in_loop {} ⟨"screen", true, true⟩).1,
   (wilson_video_mode_release_in_loop {} ⟨"screen", true, true⟩).2 (by decide) rfl⟩

/-- C4: while the orchestrator runs, the outbound consumer forwards the
submitted items to the RemoteSession exactly once each and in FIFO order:
audio-tagged items through the audio realtime primitive, image-tagged items
through the video primitive with the base64 payload decoded first. -/
theorem wilson_outbound_fifo (items : List OutboundItem)
    (h : OutboundItem.otherItem ∉ items) :
    sendRealtimeRun items = items.map outboundSendSpec ∧
    (sendRealtimeRun items).length = items.length := by
  have key : sendRealtimeRun items = items.map outboundSendSpec := by
    induction items with
    | nil => rfl
    | cons m ms ih =>
      have hm : m ≠ OutboundItem.otherItem := fun e => h (e ▸ List.mem_cons_self m ms)
      have hms : OutboundItem.otherItem ∉ ms := fun e => h (List.mem_cons_of_mem m e)
      cases m with
      | audioChunk d =>
        simpa [sendRealtimeRun, sendRealtimeStep, outboundSendSpec] using ih hms
      | imageChunk s =>
        simpa [sendRealtimeRun, sendRealtimeStep, outboundSendSpec] using ih hms
      | otherItem => exact absurd rfl hm
  exact ⟨key, by simp [key]⟩

theorem wilson_outbound_fifo_witness :
    sendRealtimeRun [OutboundItem.audioChunk [1, 2, 3], OutboundItem.imageChunk "aGk="]
      = [OutboundItem.audioChunk [1, 2, 3], OutboundItem.imageChunk "aGk="].map
          outboundSendSpec ∧
    (sendRealtimeRun [OutboundItem.audioChunk [1, 2, 3],
        OutboundItem.imageChunk "aGk="]).length = 2 :=
  wilson_outbound_fifo [OutboundItem.audioChunk [1, 2, 3], OutboundItem.imageChunk "aGk="]
    (by decide)

lemma ttsInnerLoop_all (fail : TTSFailure) (n : Nat) (ts : List String) :
    ((ttsInnerLoop fail n ts).1).all notSpeaking = true := by
  induction ts generalizing n with
  | nil =>
    unfold ttsInnerLoop
    cases sendFault fail n <;> simp [notSpeaking]
  | cons t ts ih =>
    unfold ttsInnerLoop
    cases sendFault fail n <;> simp [notSpeaking, ih]

lemma ttsTail_all (fail : TTSFailure) : (ttsTail fail).all notSpeaking = true := by
  cases fail <;> simp [ttsTail, notSpeaking]

lemma ttsAfterConnect_all (fail : TTSFailure) (first : String) (rest : List String) :
    (ttsAfterConnect fail first rest).all notSpeaking = true := by
  unfold ttsAfterConnect
  cases sendFault fail 0 with
  | some m => simp [notSpeaking]
  | none =>
    cases sendFault fail 1 with
    | some m => simp [notSpeaking]
    | none =>
      cases (ttsInnerLoop fail 2 rest).2 with
      | some m => simp [notSpeaking, ttsInnerLoop_all]
      | none => simp [notSpeaking, ttsInnerLoop_all, ttsTail_all]

lemma ttsMiddle_all (fail : TTSFailure) (first : String) (rest : List String) :
    (ttsEpisodeMiddle fail first rest).all notSpeaking = true := by
  unfold ttsEpisodeMiddle
  cases fail <;> simp [notSpeaking, ttsAfterConnect_all]

/-- C7: every speech episode the TTS bridge starts ends with exactly one
`speaking_stopped`, whatever connection failure strikes while connecting,
sending or listening: the episode's action trace opens with
`speaking_started` and always closes with `speaking_stopped`, each emitted
exactly once. -/
theorem wilson_tts_speaking_stopped_guarantee (fail : TTSFailure) (first : String)
    (rest : List String) :
    (ttsEpisode fail first rest).head? = some TTSAction.speakingOn ∧
    (ttsEpisode fail first rest).getLast? = some TTSAction.speakingOff ∧
    (ttsEpisode fail first rest).count TTSAction.speakingOff = 1 ∧
    (ttsEpisode fail first rest).count TTSAction.speakingOn = 1 := by
  have hall := ttsMiddle_all fail first rest
  have hOn : TTSAction.speakingOn ∉ ttsEpisodeMiddle fail first rest := by
    intro hm
    have := List.all_eq_true.mp hall _ hm
    simp [notSpeaking] at this
  have hOff : TTSAction.speakingOff ∉ ttsEpisodeMiddle fail first rest := by
    intro hm
    have := List.all_eq_true.mp hall _ hm
    simp [notSpeaking] at this
  refine ⟨rfl, ?_, ?_, ?_⟩
  · have : ttsEpisode fail first rest =
        (TTSAction.speakingOn :: ttsEpisodeMiddle fail first rest) ++
          [TTSAction.speakingOff] := by
      simp [ttsEpisode]
    rw [this, List.getLast?_append]
    rfl
  · simp [ttsEpisode, List.count_cons, List.count_append,
      List.count_eq_zero.mpr hOff]
  · simp [ttsEpisode, List.count_cons, List.count_append,
      List.count_eq_zero.mpr hOn]

lemma openFileFinal_all (env : ToolEnv) (a : Args) :
    ((openFileFinal env a).2).all dispatchEvent = true := by
  unfold openFileFinal
  cases h : openFileUsablePath env a with
  | none => rfl
  | some p =>
    dsimp only
    cases h2 : (match env.platform with
                | .win32 => env.startFile p
                | x => env.popenArgs ["xdg-open", p]) with
    | ok u => rfl
    | error e => rfl

lemma openFileSearchEvents_all (env : ToolEnv) (a : Args) :
    (openFileSearchEvents env a).all dispatchEvent = true := by
  unfold openFileSearchEvents
  cases h1 : openFileSearched a <;> cases h2 : openFileFound env a <;> rfl

lemma toolEventsOf_all (env : ToolEnv) (fc : FunctionCall) :
    (toolEventsOf env fc).all dispatchEvent = true := by
  unfold toolEventsOf
  split <;>
    first
      | rfl
      | (simp only [List.all_append, openFileSearchEvents_all, openFileFinal_all]
         rfl)

lemma all_flatten {α : Type} {p : α → Bool} {l : List (List α)}
    (h : ∀ xs ∈ l, xs.all p = true) : l.flatten.all p = true := by
  induction l with
  | nil => rfl
  | cons xs l ih =>
    simp only [List.flatten_cons, List.all_append]
    exact by simp [h xs (List.mem_cons_self xs l), ih fun ys hy =>
      h ys (List.mem_cons_of_mem xs hy)]

lemma toolChunkEvents_dispatch (env : ToolEnv) (fcs : List FunctionCall) :
    ((fcs.map (fun fc => (handleFunctionCall env fc).events)).flatten).all
      dispatchEvent = true := by
  apply all_flatten
  intro xs hx
  rcases List.mem_map.mp hx with ⟨fc, _, rfl⟩
  exact toolEventsOf_all env fc

lemma toolChunkEvents_all (env : ToolEnv) (fcs : List FunctionCall) :
    ((fcs.map (fun fc => (handleFunctionCall env fc).events)).flatten).all
      midTurnEvent = true := by
  have h := toolChunkEvents_dispatch env fcs
  rw [List.all_eq_true] at h ⊢
  intro e he
  simp [midTurnEvent, h e he]

lemma processPart_shape (st : TurnState) (p : Part) :
    ((processPart st p).2.events).all contentEvent = true ∧
    (processPart st p).2.sends = [] ∧ (processPart st p).2.ttsPuts = [] := by
  unfold processPart
  cases p.inlineData <;> cases hp : p.text <;>
    first
      | exact ⟨rfl, rfl, rfl⟩
      | (dsimp only [appendOut]
         split <;> exact ⟨rfl, rfl, rfl⟩)

lemma runParts_shape (st : TurnState) (ps : List Part) :
    ((runParts st ps).2.events).all contentEvent = true ∧
    (runParts st ps).2.sends = [] ∧ (runParts st ps).2.ttsPuts = [] := by
  induction ps generalizing st with
  | nil => exact ⟨rfl, rfl, rfl⟩
  | cons p ps ih =>
    have h1 := processPart_shape st p
    have h2 := ih (processPart st p).1
    simp only [runParts, appendOut, List.all_append]
    exact ⟨by simp [h1.1, h2.1], by simp [h1.2.1, h2.2.1], by simp [h1.2.2, h2.2.2]⟩

lemma processChunk_out (env : ToolEnv) (st : TurnState) (c : Chunk) :
    (processChunk env st c).2.sends = chunkBatch env c ∧
    (processChunk env st c).2.ttsPuts = [] ∧
    ((processChunk env st c).2.events).all midTurnEvent = true := by
  cases hf : c.functionCalls with
  | cons fc fcs =>
    refine ⟨?_, ?_, ?_⟩ <;> simp only [processChunk, chunkBatch, hf]
    exact toolChunkEvents_all env (fc :: fcs)
  | nil =>
    cases hs : c.serverContent with
    | none =>
      refine ⟨?_, ?_, ?_⟩ <;> simp only [processChunk, chunkBatch, hf, hs] <;> rfl
    | some sc =>
      cases hm : sc.modelTurnParts with
      | none =>
        refine ⟨?_, ?_, ?_⟩ <;> simp only [processChunk, chunkBatch, hf, hs, hm] <;> rfl
      | some parts =>
        have h := runParts_shape { st with urls := addUrls st.urls sc.groundingUris } parts
        refine ⟨?_, ?_, ?_⟩ <;> simp only [processChunk, chunkBatch, hf, hs, hm]
        · exact h.2.1
        · exact h.2.2
        · rw [List.all_eq_true] at h ⊢
          intro e he
          simp [midTurnEvent, h.1 e he]

lemma runChunks_out (env : ToolEnv) (st : TurnState) (cs : List Chunk) :
    (runChunks env st cs).2.sends = (cs.map (chunkBatch env)).flatten ∧
    (runChunks env st cs).2.ttsPuts = [] ∧
    ((runChunks env st cs).2.events).all midTurnEvent = true := by
  induction cs generalizing st with
  | nil => exact ⟨rfl, rfl, rfl⟩
  | cons c cs ih =>
    have h1 := processChunk_out env st c
    have h2 := ih (processChunk env st c).1
    simp only [runChunks, appendOut, List.map_cons, List.flatten_cons, List.all_append]
    exact ⟨by simp [h1.1, h2.1], by simp [h1.2.1, h2.2.1], by simp [h1.2.2, h2.2.2]⟩

lemma collectTexts_append (a b : List Event) :
    collectTexts (a ++ b) = collectTexts a ++ collectTexts b := by
  simp [collectTexts]

lemma collectTexts_dispatch {l : List Event} (h : l.all dispatchEvent = true) :
    collectTexts l = [] := by
  rw [List.all_eq_true] at h
  rw [collectTexts, List.filterMap_eq_nil_iff]
  intro e he
  have := h e he
  cases e <;> simp_all [dispatchEvent]

lemma collectTexts_finalize (st : TurnState) :
    collectTexts (finalizeEvents st) = [] := by
  unfold finalizeEvents
  cases st.fileListData with
  | some d => rfl
  | none =>
    by_cases h1 : st.codeContent = "" <;> by_cases h2 : st.urls = [] <;>
      simp [h1, h2, collectTexts]

lemma processPart_texts (st : TurnState) (p : Part) :
    collectTexts (processPart st p).2.events = (partText p).toList := by
  unfold processPart partText
  cases p.inlineData <;> cases hp : p.text <;>
    first
      | rfl
      | (dsimp only [appendOut]
         split <;> simp_all [collectTexts])

lemma runParts_texts (st : TurnState) (ps : List Part) :
    collectTexts (runParts st ps).2.events = ps.filterMap partText := by
  induction ps generalizing st with
  | nil => rfl
  | cons p ps ih =>
    simp only [runParts, appendOut, List.filterMap_cons]
    rw [collectTexts_append, processPart_texts, ih]
    cases partText p <;> simp

lemma processChunk_texts (env : ToolEnv) (st : TurnState) (c : Chunk) :
    collectTexts (processChunk env st c).2.events = chunkTexts c := by
  cases hf : c.functionCalls with
  | cons fc fcs =>
    simp only [processChunk, chunkTexts, hf]
    exact collectTexts_dispatch (toolChunkEvents_dispatch env (fc :: fcs))
  | nil =>
    cases hs : c.serverContent with
    | none => simp only [processChunk, chunkTexts, hf, hs]; rfl
    | some sc =>
      cases hm : sc.modelTurnParts with
      | none => simp only [processChunk, chunkTexts, hf, hs, hm]; rfl
      | some parts =>
        simp only [processChunk, chunkTexts, hf, hs, hm]
        exact runParts_texts _ parts

lemma runChunks_texts (env : ToolEnv) (st : TurnState) (cs : List Chunk) :
    collectTexts (runChunks env st cs).2.events = (cs.map chunkTexts).flatten := by
  induction cs generalizing st with
  | nil => rfl
  | cons c cs ih =>
    simp only [runChunks, appendOut, List.map_cons, List.flatten_cons]
    rw [collectTexts_append, processChunk_texts, ih]

/-- C2, counterexample: a turn whose single chunk carries the text delta
"hi" emits the delta to the text sink but performs zero puts to the TTS
fragment queue, and appends no end-of-text sentinel when the stream ends —
`receive_text` never touches `response_queue_tts`, so the claimed
delta-plus-sentinel enqueueing (at least two puts here) does not happen. -/
theorem wilson_text_delta_tts_counterexample :
    (demuxTurn trivEnv [textChunk "hi"]).ttsPuts = [] ∧
    (demuxTurn trivEnv [textChunk "hi"]).events =
      [Event.textReceived "hi", Event.codeExec "" "", Event.searchResults [],
       Event.fileList "" [], Event.endOfTurn, Event.speakingStopped] := by
  constructor <;> rfl

/-- C2, amended: each text delta of a turn is emitted immediately (and in
order) to the text sink, but the demux enqueues nothing to the TTS bridge's
fragment queue — neither the deltas nor an end-of-text sentinel; the
fragment queue is only ever drained by the user-input preemption path. -/
theorem wilson_text_delta_routing (env : ToolEnv) (cs : List Chunk) :
    (demuxTurn env cs).ttsPuts = [] ∧
    collectTexts (demuxTurn env cs).events = (cs.map chunkTexts).flatten := by
  constructor
  · simp only [demuxTurn, appendOut]
    simp [(runChunks_out env {} cs).2.1]
  · simp only [demuxTurn, appendOut]
    rw [collectTexts_append, runChunks_texts, collectTexts_finalize]
    simp

lemma runChunks_no_end (env : ToolEnv) (st : TurnState) (cs : List Chunk) :
    ((runChunks env st cs).2.events).count Event.endOfTurn = 0 := by
  have h := (runChunks_out env st cs).2.2
  rw [List.all_eq_true] at h
  rw [List.count_eq_zero]
  intro hm
  have := h _ hm
  simp [midTurnEvent, dispatchEvent, contentEvent] at this

lemma finalize_count_end (st : TurnState) :
    (finalizeEvents st).count Event.endOfTurn = 1 := by
  unfold finalizeEvents
  cases st.fileListData with
  | some d => simp
  | none =>
    by_cases h1 : st.codeContent = "" <;> by_cases h2 : st.urls = [] <;> simp [h1, h2]

lemma finalize_countP_activity (st : TurnState) :
    (finalizeEvents st).countP nonEmptyActivity ≤ 1 := by
  unfold finalizeEvents
  cases st.fileListData with
  | some d =>
    simp [List.countP_cons, nonEmptyActivity, isActivityEvent, emptyActivity]
    split_ifs <;> simp
  | none =>
    by_cases h1 : st.codeContent = "" <;> by_cases h2 : st.urls = [] <;>
      simp [h1, h2, List.countP_cons, nonEmptyActivity, isActivityEvent, emptyActivity]

/-- C3: every turn emits exactly one end-of-turn signal; at turn end at
most one substantive activity signal is emitted, chosen in the priority
directory-listing, else code-execution, else search-results; and a turn
state with no directory listing, no code content and no grounding URLs
yields exactly the single empty activity notification (the three
empty-payload signals of the `else` branch) followed by end-of-turn and
speaking-stopped. -/
theorem wilson_turn_activity_signals (env : ToolEnv) (cs : List Chunk)
    (st : TurnState) :
    ((demuxTurn env cs).events).count Event.endOfTurn = 1 ∧
    (finalizeEvents st).countP nonEmptyActivity ≤ 1 ∧
    (st.fileListData = Option.none → st.codeContent = "" → st.urls = [] →
      finalizeEvents st =
        [Event.codeExec "" "", Event.searchResults [], Event.fileList "" [],
         Event.endOfTurn, Event.speakingStopped]) ∧
    (∀ d fs, st.fileListData = some (d, fs) →
      (finalizeEvents st).filter isActivityEvent = [Event.fileList d fs]) ∧
    (st.fileListData = Option.none → st.codeContent ≠ "" →
      (finalizeEvents st).filter isActivityEvent =
        [Event.codeExec st.codeContent st.codeResult]) ∧
    (st.fileListData = Option.none → st.codeContent = "" → st.urls ≠ [] →
      (finalizeEvents st).filter isActivityEvent =
        [Event.searchResults st.urls]) := by
  refine ⟨?_, finalize_countP_activity st, ?_, ?_, ?_, ?_⟩
  · simp only [demuxTurn, appendOut]
    rw [List.count_append, runChunks_no_end, finalize_count_end]
  · intro h1 h2 h3
    simp [finalizeEvents, h1, h2, h3]
  · intro d fs h
    simp [finalizeEvents, h, isActivityEvent]
  · intro h1 h2
    simp [finalizeEvents, h1, h2, isActivityEvent]
  · intro h1 h2 h3
    simp [finalizeEvents, h1, h2, h3, isActivityEvent]

theorem wilson_turn_activity_signals_witness :
    ((demuxTurn trivEnv []).events).count Event.endOfTurn = 1 ∧
    (finalizeEvents {}).countP nonEmptyActivity ≤ 1 ∧
    finalizeEvents {} =
      [Event.codeExec "" "", Event.searchResults [], Event.fileList "" [],
       Event.endOfTurn, Event.speakingStopped] ∧
    (finalizeEvents { fileListData := some ("/home/u", ["a.txt"]) }).filter
        isActivityEvent = [Event.fileList "/home/u" ["a.txt"]] ∧
    (finalizeEvents { codeContent := "print(1)", codeResult := "1" }).filter
        isActivityEvent = [Event.codeExec "print(1)" "1"] ∧
    (finalizeEvents { urls := ["https://x.y"] }).filter isActivityEvent =
      [Event.searchResults ["https://x.y"]] :=
  ⟨(wilson_turn_activity_signals trivEnv [] {}).1,
   (wilson_turn_activity_signals trivEnv [] {}).2.1,
   (wilson_turn_activity_signals trivEnv [] {}).2.2.1 rfl rfl rfl,
   (wilson_turn_activity_signals trivEnv []
      { fileListData := some ("/home/u", ["a.txt"]) }).2.2.2.1 "/home/u" ["a.txt"] rfl,
   (wilson_turn_activity_signals trivEnv []
      { codeContent := "print(1)", codeResult := "1" }).2.2.2.2.1 rfl (by decide),
   (wilson_turn_activity_signals trivEnv []
      { urls := ["https://x.y"] }).2.2.2.2.2 rfl rfl (by decide)⟩

lemma demuxTurn_sends (env : ToolEnv) (cs : List Chunk) :
    (demuxTurn env cs).sends = (cs.map (chunkBatch env)).flatten := by
  simp only [demuxTurn, appendOut]
  simp [(runChunks_out env {} cs).1]

lemma chunkResponses_ids (env : ToolEnv) (fcs : List FunctionCall) :
    (chunkResponses env fcs).map (fun r => (r.id, r.name)) =
      fcs.map (fun fc => (fc.id, fc.name)) := by
  simp [chunkResponses, List.map_map]

lemma runToolLoopEx_ok (env : ToolEnv) (fcs : List FunctionCall)
    (h : fcs.all (fun fc => !dispatchRaises env fc) = true) :
    runToolLoopEx env fcs = some (chunkResponses env fcs) := by
  induction fcs with
  | nil => rfl
  | cons fc fcs ih =>
    rw [List.all_cons, Bool.and_eq_true] at h
    have h1 : dispatchRaises env fc = false := by simpa using h.1
    simp [runToolLoopEx, h1, ih h.2, chunkResponses, handleFunctionCall]

lemma turnBatchesEx_ok (env : ToolEnv) (cs : List Chunk)
    (h : cs.all (fun c => c.functionCalls.all (fun fc => !dispatchRaises env fc)) = true) :
    turnBatchesEx env cs =
      (cs.filter (fun c => !c.functionCalls.isEmpty)).map
        (fun c => chunkResponses env c.functionCalls) := by
  induction cs with
  | nil => rfl
  | cons c cs ih =>
    rw [List.all_cons, Bool.and_eq_true] at h
    cases hf : c.functionCalls with
    | nil => simp [turnBatchesEx, hf, List.filter_cons, ih h.2]
    | cons fc fcs =>
      have hr := runToolLoopEx_ok env (fc :: fcs) (hf ▸ h.1)
      simp [turnBatchesEx, hf, hr, List.filter_cons, ih h.2]

lemma batches_ids (env : ToolEnv) (cs : List Chunk) :
    (((cs.filter (fun c => !c.functionCalls.isEmpty)).map
        (fun c => chunkResponses env c.functionCalls)).flatten).map
      (fun r => (r.id, r.name)) =
      (turnRequests cs).map (fun fc => (fc.id, fc.name)) := by
  induction cs with
  | nil => rfl
  | cons c cs ih =>
    cases hf : c.functionCalls with
    | nil =>
      simp only [turnRequests, List.map_cons, List.flatten_cons, List.filter_cons, hf]
      simpa [turnRequests] using ih
    | cons fc fcs =>
      simp only [turnRequests, List.map_cons, List.flatten_cons, List.filter_cons, hf,
        List.isEmpty_cons, Bool.not_false, if_true, List.map_append]
      rw [chunkResponses_ids]
      simpa [turnRequests] using ih

lemma chunkBatch_toolResponse (env : ToolEnv) (cs : List Chunk) :
    (cs.map (chunkBatch env)).flatten =
      (cs.filter (fun c => !c.functionCalls.isEmpty)).map
        (fun c => Send.toolResponse (chunkResponses env c.functionCalls)) := by
  induction cs with
  | nil => rfl
  | cons c cs ih =>
    cases hf : c.functionCalls with
    | nil => simp [chunkBatch, hf, List.filter_cons, ih]
    | cons fc fcs => simp [chunkBatch, hf, List.filter_cons, ih]

/-- C1, counterexample: a chunk carrying one `create_folder` request whose
`folder_path` argument is `None` gets zero responses, not one.  The helper
itself returns an error mapping, but the activity emit then evaluates
`escape(path)` (wilson.py:756) on the `None` value, which raises; the
exception escapes the chunk loop before `send_tool_response` (:904) and is
caught by the per-turn handler (:926), so the turn aborts with no batch
sent while one request was received. -/
theorem wilson_tool_call_batching_counterexample :
    dispatchRaises trivEnv
      ⟨"call-1", "create_folder", { folderPath := some PyVal.noneV }⟩ = true ∧
    turnBatchesEx trivEnv
      [{ functionCalls :=
          [⟨"call-1", "create_folder", { folderPath := some PyVal.noneV }⟩] }] = [] ∧
    turnRequests
      [{ functionCalls :=
          [⟨"call-1", "create_folder", { folderPath := some PyVal.noneV }⟩] }] =
      [⟨"call-1", "create_folder", { folderPath := some PyVal.noneV }⟩] := by
  refine ⟨rfl, rfl, rfl⟩

/-- C1, amended: for every turn and every chunk carrying tool calls, as
long as each request's argument values are strings wherever its dispatch
branch interpolates them into the activity HTML (schema-conformant
arguments; `dispatchRaises` is false), the demux produces exactly one
result per request, each carrying the id and name of its request, matched
pointwise and in stream order, sends them as one batch per tool chunk at
that chunk's position in the send stream, and over the whole turn the
number of results equals the number of requests; a non-string argument
value instead raises during HTML formatting and aborts the turn before
`send_tool_response`, so those requests receive no response. -/
theorem wilson_tool_call_batching (env : ToolEnv) (cs : List Chunk)
    (h : cs.all (fun c => c.functionCalls.all (fun fc => !dispatchRaises env fc)) = true) :
    ((turnBatchesEx env cs).flatten).map (fun r => (r.id, r.name)) =
      (turnRequests cs).map (fun fc => (fc.id, fc.name)) ∧
    ((turnBatchesEx env cs).flatten).length = (turnRequests cs).length ∧
    (turnBatchesEx env cs).length =
      (cs.filter (fun c => !c.functionCalls.isEmpty)).length ∧
    (demuxTurn env cs).sends = (turnBatchesEx env cs).map Send.toolResponse := by
  have hb := turnBatchesEx_ok env cs h
  have h1 : ((turnBatchesEx env cs).flatten).map (fun r => (r.id, r.name)) =
      (turnRequests cs).map (fun fc => (fc.id, fc.name)) := by
    rw [hb]
    exact batches_ids env cs
  refine ⟨h1, ?_, ?_, ?_⟩
  · have e1 := List.length_map ((turnBatchesEx env cs).flatten) (fun r => (r.id, r.name))
    have e2 := List.length_map (turnRequests cs) (fun fc => (fc.id, fc.name))
    rw [← e1, h1, e2]
  · rw [hb, List.length_map]
  · rw [demuxTurn_sends, hb, List.map_map, chunkBatch_toolResponse]
    rfl

/-- Concrete chunks with schema-conformant (string) arguments: one tool
chunk with two requests and one text-only chunk. -/
def c1WitnessChunks : List Chunk :=
  [{ functionCalls :=
      [⟨"a", "create_folder", { folderPath := some (PyVal.str "/tmp/x") }⟩,
       ⟨"b", "open_website", { url := some (PyVal.str "example.com") }⟩] },
   textChunk "hi"]

theorem wilson_tool_call_batching_witness :
    ((turnBatchesEx trivEnv c1WitnessChunks).flatten).map (fun r => (r.id, r.name)) =
      (turnRequests c1WitnessChunks).map (fun fc => (fc.id, fc.name)) ∧
    ((turnBatchesEx trivEnv c1WitnessChunks).flatten).length =
      (turnRequests c1WitnessChunks).length ∧
    (turnBatchesEx trivEnv c1WitnessChunks).length =
      (c1WitnessChunks.filter (fun c => !c.functionCalls.isEmpty)).length ∧
    (demuxTurn trivEnv c1WitnessChunks).sends =
      (turnBatchesEx trivEnv c1WitnessChunks).map Send.toolResponse :=
  wilson_tool_call_batching trivEnv c1WitnessChunks (by decide)

lemma bodyOkStatus_pure (r : ToolResult) (h : statusTotal r) :
    bodyOkStatus (Except.ok r) := by
  intro r' hr
  cases hr
  exact h

lemma bodyOkStatus_err (e : String) : bodyOkStatus (Except.error e) := by
  intro r hr
  simp at hr

lemma bodyOkStatus_bind {α : Type} (x : Except String α)
    (f : α → Except String ToolResult) (h : ∀ a, bodyOkStatus (f a)) :
    bodyOkStatus (x >>= f) := by
  cases x with
  | error e => intro r hr; simp [Bind.bind, Except.bind] at hr
  | ok a =>
    intro r hr
    exact h a r (by simpa [Bind.bind, Except.bind] using hr)

lemma statusTotal_error_lit (m : String) :
    statusTotal { status := some Status.error, message := m } := Or.inr (Or.inl rfl)

lemma createFolderBody_status (env : ToolEnv) (p : PyVal) :
    bodyOkStatus (createFolderBody env p) := by
  unfold createFolderBody
  cases p.validStr with
  | none => exact bodyOkStatus_pure _ (by simp [statusTotal])
  | some q =>
    dsimp only
    by_cases h : env.pathExists q
    · rw [if_pos h]
      exact bodyOkStatus_pure _ (by simp [statusTotal])
    · rw [if_neg h]
      exact bodyOkStatus_bind _ _ fun _ => bodyOkStatus_pure _ (by simp [statusTotal])

lemma createFileBody_status (env : ToolEnv) (p c : PyVal) :
    bodyOkStatus (createFileBody env p c) := by
  unfold createFileBody
  cases p.validStr with
  | none => exact bodyOkStatus_pure _ (by simp [statusTotal])
  | some q =>
    dsimp only
    by_cases h : env.pathExists q
    · rw [if_pos h]
      exact bodyOkStatus_pure _ (by simp [statusTotal])
    · rw [if_neg h]
      cases c with
      | str s =>
        exact bodyOkStatus_bind _ _ fun _ => bodyOkStatus_pure _ (by simp [statusTotal])
      | noneV => exact bodyOkStatus_err _
      | other => exact bodyOkStatus_err _

lemma editFileBody_status (env : ToolEnv) (p c : PyVal) :
    bodyOkStatus (editFileBody env p c) := by
  unfold editFileBody
  cases p.validStr with
  | none => exact bodyOkStatus_pure _ (by simp [statusTotal])
  | some q =>
    dsimp only
    by_cases h : env.pathExists q
    · simp only [h, not_true_eq_false, if_false]
      exact bodyOkStatus_bind _ _ fun _ => bodyOkStatus_pure _ (by simp [statusTotal])
    · simp only [h, not_false_eq_true, if_true]
      exact bodyOkStatus_pure _ (by simp [statusTotal])

lemma listFilesAt_status (env : ToolEnv) (p : String) :
    bodyOkStatus (listFilesAt env p) := by
  unfold listFilesAt
  by_cases h : env.isdir p
  · simp only [h, not_true_eq_false, if_false]
    exact bodyOkStatus_bind _ _ fun _ => bodyOkStatus_pure _ (by simp [statusTotal])
  · simp only [h, not_false_eq_true, if_true]
    exact bodyOkStatus_pure _ (by simp [statusTotal])

lemma listFilesBody_status (env : ToolEnv) (p : PyVal) :
    bodyOkStatus (listFilesBody env p) := by
  unfold listFilesBody
  cases p with
  | str s => exact listFilesAt_status env _
  | noneV => exact listFilesAt_status env "."
  | other => exact bodyOkStatus_pure _ (by simp [statusTotal])

lemma readFileBody_status (env : ToolEnv) (p : PyVal) :
    bodyOkStatus (readFileBody env p) := by
  unfold readFileBody
  cases p.validStr with
  | none => exact bodyOkStatus_pure _ (by simp [statusTotal])
  | some q =>
    dsimp only
    by_cases h1 : env.pathExists q
    · simp only [h1, not_true_eq_false, if_false]
      by_cases h2 : env.isfile q
      · simp only [h2, not_true_eq_false, if_false]
        exact bodyOkStatus_bind _ _ fun _ => bodyOkStatus_pure _ (by simp [statusTotal])
      · simp only [h2, not_false_eq_true, if_true]
        exact bodyOkStatus_pure _ (by simp [statusTotal])
    · simp only [h1, not_false_eq_true, if_true]
      exact bodyOkStatus_pure _ (by simp [statusTotal])

lemma moveFileBody_status (env : ToolEnv) (s d : PyVal) :
    bodyOkStatus (moveFileBody env s d) := by
  unfold moveFileBody
  cases s.validStr with
  | none => exact bodyOkStatus_pure _ (by simp [statusTotal])
  | some src =>
    dsimp only
    cases d.validStr with
    | none => exact bodyOkStatus_pure _ (by simp [statusTotal])
    | some dst =>
      dsimp only
      by_cases h : env.pathExists src
      · simp only [h, not_true_eq_false, if_false]
        exact bodyOkStatus_bind _ _ fun _ =>
          bodyOkStatus_bind _ _ fun _ => bodyOkStatus_pure _ (by simp [statusTotal])
      · simp only [h, not_false_eq_true, if_true]
        exact bodyOkStatus_pure _ (by simp [statusTotal])

lemma openApplicationWinLaunch_status (env : ToolEnv) (an exe : String) :
    bodyOkStatus (openApplicationWinLaunch env an exe) := by
  unfold openApplicationWinLaunch
  cases env.popenDirect exe with
  | ok => exact bodyOkStatus_pure _ (by simp [statusTotal])
  | raised m => exact bodyOkStatus_err m
  | fileNotFound m =>
    dsimp only
    cases findExeHit env (appSearchDirs env) exe with
    | none =>
      dsimp only
      exact bodyOkStatus_bind _ _ fun _ => bodyOkStatus_pure _ (by simp [statusTotal])
    | some fullPath =>
      dsimp only
      cases env.popenDirect fullPath with
      | ok => exact bodyOkStatus_pure _ (by simp [statusTotal])
      | raised m2 => exact bodyOkStatus_err m2
      | fileNotFound m2 => exact bodyOkStatus_err m2

lemma openApplicationBody_status (env : ToolEnv) (a : PyVal) :
    bodyOkStatus (openApplicationBody env a) := by
  unfold openApplicationBody
  cases a.validStr with
  | none => exact bodyOkStatus_pure _ (by simp [statusTotal])
  | some appName =>
    dsimp only
    cases env.platform with
    | darwin =>
      exact bodyOkStatus_bind _ _ fun _ => bodyOkStatus_pure _ (by simp [statusTotal])
    | linux =>
      exact bodyOkStatus_bind _ _ fun _ => bodyOkStatus_pure _ (by simp [statusTotal])
    | win32 =>
      cases appMap.lookup appName.toLower.trim with
      | none =>
        exact bodyOkStatus_bind _ _ fun _ => bodyOkStatus_pure _ (by simp [statusTotal])
      | some exe =>
        dsimp only
        by_cases h1 : exe.endsWith ":"
        · simp only [h1, if_true]
          exact bodyOkStatus_bind _ _ fun _ => bodyOkStatus_pure _ (by simp [statusTotal])
        · simp only [h1, if_false]
          by_cases h2 : consoleApps.contains exe.toLower
          · simp only [h2, if_true]
            exact bodyOkStatus_bind _ _ fun _ =>
              bodyOkStatus_pure _ (by simp [statusTotal])
          · simp only [h2, if_false]
            exact openApplicationWinLaunch_status env appName exe

lemma openDirectYoutubeBody_status (env : ToolEnv) (q c : PyVal) :
    bodyOkStatus (openDirectYoutubeBody env q c) := by
  unfold openDirectYoutubeBody
  cases q.validStr with
  | none => exact bodyOkStatus_pure _ (by simp [statusTotal])
  | some s =>
    exact bodyOkStatus_bind _ _ fun _ => bodyOkStatus_pure _ (by simp [statusTotal])

lemma searchAndOpenBody_status (env : ToolEnv) (q p : PyVal) :
    bodyOkStatus (searchAndOpenBody env q p) := by
  unfold searchAndOpenBody
  cases q.validStr with
  | none => exact bodyOkStatus_pure _ (by simp [statusTotal])
  | some s =>
    dsimp only
    by_cases h1 : p = PyVal.str "youtube"
    · simp only [h1, if_true]
      exact bodyOkStatus_bind _ _ fun _ => bodyOkStatus_pure _ (by simp [statusTotal])
    · simp only [h1, if_false]
      by_cases h2 : p = PyVal.str "google"
      · simp only [h2, if_true]
        exact bodyOkStatus_bind _ _ fun _ => bodyOkStatus_pure _ (by simp [statusTotal])
      · simp only [h2, if_false]
        exact bodyOkStatus_bind _ _ fun _ => bodyOkStatus_pure _ (by simp [statusTotal])

lemma closeApplicationBody_status (env : ToolEnv) (a : PyVal) :
    bodyOkStatus (closeApplicationBody env a) := by
  unfold closeApplicationBody
  cases a.validStr with
  | none => exact bodyOkStatus_pure _ (by simp [statusTotal])
  | some appName =>
    dsimp only
    cases env.platform with
    | darwin =>
      refine bodyOkStatus_bind _ _ fun rc => ?_
      by_cases h : rc = 0 <;> simp only [h, if_true, if_false] <;>
        exact bodyOkStatus_pure _ (by simp [statusTotal])
    | linux =>
      refine bodyOkStatus_bind _ _ fun rc => ?_
      by_cases h : rc = 0 <;> simp only [h, if_true, if_false] <;>
        exact bodyOkStatus_pure _ (by simp [statusTotal])
    | win32 =>
      refine bodyOkStatus_bind _ _ fun killed => ?_
      cases killed with
      | true => exact bodyOkStatus_pure _ (by simp [statusTotal])
      | false =>
        refine bodyOkStatus_bind _ _ fun rc => ?_
        by_cases h : rc = 0 <;> simp only [h, if_true, if_false] <;>
          exact bodyOkStatus_pure _ (by simp [statusTotal])

lemma openWebsiteBody_status (env : ToolEnv) (u : PyVal) :
    bodyOkStatus (openWebsiteBody env u) := by
  unfold openWebsiteBody
  cases u.validStr with
  | none => exact bodyOkStatus_pure _ (by simp [statusTotal])
  | some s =>
    exact bodyOkStatus_bind _ _ fun _ => bodyOkStatus_pure _ (by simp [statusTotal])

/-- C8: none of the tool execution helpers lets an exception escape: each
always returns a result mapping whose `status` is success, error, skipped
or not_found, with any internal exception converted by the helper's
`except` clause into `status = error` plus a message. -/
theorem wilson_tool_helpers_status_total :
    (∀ env p, statusTotal (createFolder env p)) ∧
    (∀ env p c, statusTotal (createFile env p c)) ∧
    (∀ env p c, statusTotal (editFile env p c)) ∧
    (∀ env p, statusTotal (listFiles env p)) ∧
    (∀ env p, statusTotal (readFile env p)) ∧
    (∀ env s d, statusTotal (moveFile env s d)) ∧
    (∀ env a, statusTotal (openApplication env a)) ∧
    (∀ env q c, statusTotal (openDirectYoutube env q c)) ∧
    (∀ env q p, statusTotal (searchAndOpen env q p)) ∧
    (∀ env a, statusTotal (closeApplication env a)) ∧
    (∀ env u, statusTotal (openWebsite env u)) := by
  refine ⟨fun env p => ?_, fun env p c => ?_, fun env p c => ?_, fun env p => ?_,
    fun env p => ?_, fun env s d => ?_, fun env a => ?_, fun env q c => ?_,
    fun env q p => ?_, fun env a => ?_, fun env u => ?_⟩
  · unfold createFolder
    cases hb : createFolderBody env p with
    | ok r => exact createFolderBody_status env p r hb
    | error e => exact statusTotal_error_lit _
  · unfold createFile
    cases hb : createFileBody env p c with
    | ok r => exact createFileBody_status env p c r hb
    | error e => exact statusTotal_error_lit _
  · unfold editFile
    cases hb : editFileBody env p c with
    | ok r => exact editFileBody_status env p c r hb
    | error e => exact statusTotal_error_lit _
  · unfold listFiles
    cases hb : listFilesBody env p with
    | ok r => exact listFilesBody_status env p r hb
    | error e => exact statusTotal_error_lit _
  · unfold readFile
    cases hb : readFileBody env p with
    | ok r => exact readFileBody_status env p r hb
    | error e => exact statusTotal_error_lit _
  · unfold moveFile
    cases hb : moveFileBody env s d with
    | ok r => exact moveFileBody_status env s d r hb
    | error e => exact statusTotal_error_lit _
  · unfold openApplication
    cases hb : openApplicationBody env a with
    | ok r => exact openApplicationBody_status env a r hb
    | error e => exact statusTotal_error_lit _
  · unfold openDirectYoutube
    cases hb : openDirectYoutubeBody env q c with
    | ok r => exact openDirectYoutubeBody_status env q c r hb
    | error e => exact statusTotal_error_lit _
  · unfold searchAndOpen
    cases hb : searchAndOpenBody env q p with
    | ok r => exact searchAndOpenBody_status env q p r hb
    | error e => exact statusTotal_error_lit _
  · unfold closeApplication
    cases hb : closeApplicationBody env a with
    | ok r => exact closeApplicationBody_status env a r hb
    | error e => exact statusTotal_error_lit _
  · unfold openWebsite
    cases hb : openWebsiteBody env u with
    | ok r => exact openWebsiteBody_status env u r hb
    | error e => exact statusTotal_error_lit _

end Wilson
